import Mathlib

/-!
# NeoPyxel `Scene3DWidget` — verification development

A shallow embedding of the software 3D viewport of
`src/module/widget/Scene/scene3d_widget.py`:

* the OBJ wireframe loader `_load_obj_wireframe` (exact rational arithmetic
  stands in for Python floats; the file's contents are given as an
  `Option (List String)`, `none` modelling an unreadable file, so the
  `try/except` around the whole read-and-parse loop becomes `Except`),
* the scene (de)serialisation `load_scene_data` over a small model of
  Python runtime values (`PyVal`), with Python `float()` / numeric
  coercions that can raise modelled by `Except Unit`,
* the camera math (`_camera_vectors`, `_project_point`, `_ray_from_screen`,
  `_intersect_plane_y`) and the pointer-event state machine
  (`mousePressEvent`, `mouseMoveEvent`, `mouseReleaseEvent`,
  `_align_camera_to_axis`, `reset_camera_view`) over the reals.

Theorems at the end settle the frozen claims about this code.
-/

namespace NeoPyxel

/-! ## Rational 3-vectors and the OBJ wireframe loader

`_load_obj_wireframe` (scene3d_widget.py lines 197-253).  Numeric text is
parsed into `ℚ`; Python's `float(tok)` / `int(tok)` are modelled by
`parseFloat` / `parseInt` returning `none` exactly when CPython raises
`ValueError` (the model covers sign / digits / decimal point / exponent;
exotic accepted spellings such as `inf`, `nan` or `_` separators are not
needed by any input considered here). -/

abbrev Q3 := ℚ × ℚ × ℚ

/-- Value of a digit string, most significant first (`digitsToNat ['4','2'] = 42`). -/
def digitsToNat (ds : List Char) : ℕ :=
  ds.foldl (fun n c => n * 10 + (c.toNat - 48)) 0

/-- Strip one optional leading sign, returning the sign as `1` or `-1`. -/
def takeSign : List Char → ℤ × List Char
  | '+' :: cs => (1, cs)
  | '-' :: cs => (-1, cs)
  | cs => (1, cs)

/-- Python `str.strip()` (no argument): drop whitespace from both ends.
Implemented over `List Char` so that it evaluates inside the kernel. -/
def stripChars (cs : List Char) : List Char :=
  ((cs.dropWhile Char.isWhitespace).reverse.dropWhile Char.isWhitespace).reverse

/-- Unsigned mantissa of a Python float literal: digits with an optional
decimal point, at least one digit overall. -/
def parseMantissa (cs : List Char) : Option ℚ :=
  let p := cs.span Char.isDigit
  match p.2 with
  | [] => if p.1.isEmpty then Option.none else some (digitsToNat p.1 : ℚ)
  | '.' :: rest =>
    let q := rest.span Char.isDigit
    if q.2.isEmpty && (!p.1.isEmpty || !q.1.isEmpty) then
      some ((digitsToNat p.1 : ℚ) + (digitsToNat q.1 : ℚ) / (10 : ℚ) ^ q.1.length)
    else Option.none
  | _ => Option.none

/-- Signed decimal exponent (the part after `e`/`E`). -/
def parseExponent (cs : List Char) : Option ℤ :=
  let p := takeSign cs
  if !p.2.isEmpty && p.2.all Char.isDigit then some (p.1 * digitsToNat p.2)
  else Option.none

/-- Model of CPython `float(s)` (which strips whitespace first): `none` iff
`float` raises `ValueError`. -/
def parseFloat (cs : List Char) : Option ℚ :=
  let p := takeSign (stripChars cs)
  let m := p.2.span fun c => !(c == 'e' || c == 'E')
  match m.2 with
  | [] => (parseMantissa m.1).map fun q => (p.1 : ℚ) * q
  | _ :: ex =>
    match parseMantissa m.1, parseExponent ex with
    | some q, some e => some ((p.1 : ℚ) * q * (10 : ℚ) ^ e)
    | _, _ => Option.none

/-- Model of CPython `int(s)`: `none` iff `int` raises `ValueError`. -/
def parseInt (cs : List Char) : Option ℤ :=
  let p := takeSign (stripChars cs)
  if !p.2.isEmpty && p.2.all Char.isDigit then some (p.1 * digitsToNat p.2)
  else Option.none

/-- Python `str.split()` with no argument: split on whitespace runs, dropping
empty pieces (`cur` is the current token, reversed). -/
def splitWsAux : List Char → List Char → List (List Char)
  | [], cur => if cur.isEmpty then [] else [cur.reverse]
  | c :: cs, cur =>
    if c.isWhitespace then
      if cur.isEmpty then splitWsAux cs [] else cur.reverse :: splitWsAux cs []
    else splitWsAux cs (c :: cur)

/-- Python `str.split()` with no argument. -/
def pySplit (cs : List Char) : List (List Char) :=
  splitWsAux cs []

/-- Python `str.split(sep)` for a one-character separator (`"a/b/".split("/")
= ["a", "b", ""]`, `"".split("/") = [""]`). -/
def splitOnCharAux (sep : Char) : List Char → List Char → List (List Char)
  | [], cur => [cur.reverse]
  | c :: cs, cur =>
    if c = sep then cur.reverse :: splitOnCharAux sep cs []
    else splitOnCharAux sep cs (c :: cur)

/-- Python `str.split(sep)` for a one-character separator. -/
def splitOnChar (sep : Char) (cs : List Char) : List (List Char) :=
  splitOnCharAux sep cs []

/-- The geometry `_load_obj_wireframe` returns on success
(the Python dict with keys `vertices` and `edges`). -/
structure Wireframe where
  vertices : List Q3
  edges : List (ℕ × ℕ)
deriving DecidableEq

/-- `edges.add(e)` on the Python `set`, modelled as an insertion-ordered
duplicate-free list (the claims never depend on the set's iteration order). -/
def insertEdge (es : List (ℕ × ℕ)) (e : ℕ × ℕ) : List (ℕ × ℕ) :=
  if e ∈ es then es else es ++ [e]

/-- One token of a face line: `base = tok.split("/")[0]`; an empty base and a
base `int()` rejects are skipped (`continue`); a surviving 1-based or negative
index is resolved against the `nverts` vertices parsed so far and kept only
in range. -/
def faceIndexStep (nverts : ℕ) (acc : List ℕ) (tok : List Char) : List ℕ :=
  let base := (splitOnChar '/' tok).headD []
  if base = [] then acc
  else
    match parseInt base with
    | Option.none => acc
    | some vi =>
      let vi := if vi < 0 then (nverts : ℤ) + vi + 1 else vi
      let vi := vi - 1
      if 0 ≤ vi ∧ vi < (nverts : ℤ) then acc ++ [vi.toNat] else acc

/-- The inner token loop of a face line. -/
def faceIndices (nverts : ℕ) (toks : List (List Char)) : List ℕ :=
  toks.foldl (faceIndexStep nverts) []

/-- `indices[i], indices[(i+1) % len(indices)]` for `i` in range. -/
def faceLoopPairs : List ℕ → List (ℕ × ℕ)
  | [] => []
  | a :: rest => (a :: rest).zip (rest ++ [a])

/-- Add the consecutive-pair edges of one face loop, skipping self-edges and
keying each edge by `(min, max)`. -/
def addFaceEdges (es : List (ℕ × ℕ)) (idx : List ℕ) : List (ℕ × ℕ) :=
  (faceLoopPairs idx).foldl
    (fun es p =>
      if p.1 ≠ p.2 then insertEdge es (min p.1 p.2, max p.1 p.2) else es) es

/-- The three coordinates `float(parts[1]), float(parts[2]), float(parts[3])`
of a vertex line; a `ValueError` from any of them is the uncaught exception
that aborts `_load_obj_wireframe`'s whole loop. -/
def parseVertex (parts : List (List Char)) : Except Unit Q3 :=
  match parseFloat (parts.getD 1 []), parseFloat (parts.getD 2 []),
      parseFloat (parts.getD 3 []) with
  | some a, some b, some c => .ok (a, b, c)
  | _, _, _ => .error ()

/-- One iteration of the `for raw in f` loop: state is (vertices, edges). -/
def parseObjStep (st : List Q3 × List (ℕ × ℕ)) (raw : String) :
    Except Unit (List Q3 × List (ℕ × ℕ)) :=
  let line := stripChars raw.toList
  if ['v', ' '].isPrefixOf line then
    let parts := pySplit line
    if parts.length ≥ 4 then
      match parseVertex parts with
      | .ok v => .ok (st.1 ++ [v], st.2)
      | .error e => .error e
    else .ok st
  else if ['f', ' '].isPrefixOf line then
    let parts := (pySplit line).drop 1
    .ok (st.1, addFaceEdges st.2 (faceIndices st.1.length parts))
  else .ok st

/-- The read-and-parse loop of `_load_obj_wireframe`; an error is the
exception the surrounding `except Exception: return None` catches. -/
def parseObj (lines : List String) : Except Unit (List Q3 × List (ℕ × ℕ)) :=
  lines.foldlM parseObjStep ([], [])

/-- Python `min` over a nonempty generator (`[]` is unreachable: the caller
checked `vertices` is nonempty). -/
def listMinBy (f : Q3 → ℚ) : List Q3 → ℚ
  | [] => 0
  | v :: rest => rest.foldl (fun m w => min m (f w)) (f v)

/-- Python `max` over a nonempty generator. -/
def listMaxBy (f : Q3 → ℚ) : List Q3 → ℚ
  | [] => 0
  | v :: rest => rest.foldl (fun m w => max m (f w)) (f v)

/-- The bounding-box normalisation at the end of `_load_obj_wireframe`:
translate by minus the box centre, scale by `1.0 / max(1e-6, max(sx, sy, sz))`. -/
def normalizeVerts (vs : List Q3) : List Q3 :=
  let minX := listMinBy (fun v => v.1) vs
  let minY := listMinBy (fun v => v.2.1) vs
  let minZ := listMinBy (fun v => v.2.2) vs
  let maxX := listMaxBy (fun v => v.1) vs
  let maxY := listMaxBy (fun v => v.2.1) vs
  let maxZ := listMaxBy (fun v => v.2.2) vs
  let cx := (minX + maxX) * (1 / 2)
  let cy := (minY + maxY) * (1 / 2)
  let cz := (minZ + maxZ) * (1 / 2)
  let sx := maxX - minX
  let sy := maxY - minY
  let sz := maxZ - minZ
  let scale := 1 / max (1 / 1000000 : ℚ) (max sx (max sy sz))
  vs.map fun v => ((v.1 - cx) * scale, (v.2.1 - cy) * scale, (v.2.2 - cz) * scale)

/-- `_load_obj_wireframe`: `none` both for an unreadable file (`file = none`)
and for a parse abort or a degenerate (no vertices / no edges) result. -/
def loadObjWireframe (file : Option (List String)) : Option Wireframe :=
  match file with
  | Option.none => Option.none
  | some lines =>
    match parseObj lines with
    | .error _ => Option.none
    | .ok st =>
      if st.1 = [] ∨ st.2 = [] then Option.none
      else some ⟨normalizeVerts st.1, st.2⟩

/-! ### Bounding-box observables (the spec's "bbox dimensions" / "center") -/

/-- Width, height and depth of the axis-aligned bounding box. -/
def bboxSpans (vs : List Q3) : ℚ × ℚ × ℚ :=
  (listMaxBy (fun v => v.1) vs - listMinBy (fun v => v.1) vs,
   listMaxBy (fun v => v.2.1) vs - listMinBy (fun v => v.2.1) vs,
   listMaxBy (fun v => v.2.2) vs - listMinBy (fun v => v.2.2) vs)

/-- Largest bounding-box dimension. -/
def bboxMaxDim (vs : List Q3) : ℚ :=
  max (bboxSpans vs).1 (max (bboxSpans vs).2.1 (bboxSpans vs).2.2)

/-- Centre of the axis-aligned bounding box. -/
def bboxCenter (vs : List Q3) : Q3 :=
  ((listMinBy (fun v => v.1) vs + listMaxBy (fun v => v.1) vs) / 2,
   (listMinBy (fun v => v.2.1) vs + listMaxBy (fun v => v.2.1) vs) / 2,
   (listMinBy (fun v => v.2.2) vs + listMaxBy (fun v => v.2.2) vs) / 2)

/-! ### How the extrema transform under the normalisation's affine map -/

lemma foldl_min_affine (g : Q3 → ℚ) (c k : ℚ) (hk : 0 ≤ k) (l : List Q3) (m : ℚ) :
    l.foldl (fun acc w => min acc ((g w - c) * k)) ((m - c) * k)
      = (l.foldl (fun acc w => min acc (g w)) m - c) * k := by
  induction l generalizing m with
  | nil => rfl
  | cons w l ih =>
    simp only [List.foldl_cons]
    rw [show min ((m - c) * k) ((g w - c) * k) = (min m (g w) - c) * k by
      rw [← min_sub_sub_right, min_mul_of_nonneg _ _ hk]]
    exact ih (min m (g w))

lemma foldl_max_affine (g : Q3 → ℚ) (c k : ℚ) (hk : 0 ≤ k) (l : List Q3) (m : ℚ) :
    l.foldl (fun acc w => max acc ((g w - c) * k)) ((m - c) * k)
      = (l.foldl (fun acc w => max acc (g w)) m - c) * k := by
  induction l generalizing m with
  | nil => rfl
  | cons w l ih =>
    simp only [List.foldl_cons]
    rw [show max ((m - c) * k) ((g w - c) * k) = (max m (g w) - c) * k by
      rw [← max_sub_sub_right, max_mul_of_nonneg _ _ hk]]
    exact ih (max m (g w))

lemma listMinBy_map (f : Q3 → ℚ) (φ : Q3 → Q3) (vs : List Q3) :
    listMinBy f (vs.map φ) = listMinBy (fun v => f (φ v)) vs := by
  cases vs with
  | nil => rfl
  | cons v l => simp [listMinBy, List.foldl_map]

lemma listMaxBy_map (f : Q3 → ℚ) (φ : Q3 → Q3) (vs : List Q3) :
    listMaxBy f (vs.map φ) = listMaxBy (fun v => f (φ v)) vs := by
  cases vs with
  | nil => rfl
  | cons v l => simp [listMaxBy, List.foldl_map]

lemma listMinBy_affine (f g : Q3 → ℚ) (c k : ℚ) (hk : 0 ≤ k)
    (hg : ∀ v, g v = (f v - c) * k) (vs : List Q3) (h : vs ≠ []) :
    listMinBy g vs = (listMinBy f vs - c) * k := by
  have hg' : g = fun v => (f v - c) * k := funext hg
  subst hg'
  cases vs with
  | nil => exact absurd rfl h
  | cons v l => simpa [listMinBy] using foldl_min_affine f c k hk l (f v)

lemma listMaxBy_affine (f g : Q3 → ℚ) (c k : ℚ) (hk : 0 ≤ k)
    (hg : ∀ v, g v = (f v - c) * k) (vs : List Q3) (h : vs ≠ []) :
    listMaxBy g vs = (listMaxBy f vs - c) * k := by
  have hg' : g = fun v => (f v - c) * k := funext hg
  subst hg'
  cases vs with
  | nil => exact absurd rfl h
  | cons v l => simpa [listMaxBy] using foldl_max_affine f c k hk l (f v)

/-- Spans and centre of a list of vertices pushed through the
translate-then-scale map the normalisation applies. -/
lemma bbox_map_affine (c1 c2 c3 k : ℚ) (hk : 0 ≤ k) (vs : List Q3) (h : vs ≠ []) :
    bboxSpans (vs.map fun v => ((v.1 - c1) * k, (v.2.1 - c2) * k, (v.2.2 - c3) * k))
        = ((bboxSpans vs).1 * k, (bboxSpans vs).2.1 * k, (bboxSpans vs).2.2 * k)
    ∧ bboxCenter (vs.map fun v => ((v.1 - c1) * k, (v.2.1 - c2) * k, (v.2.2 - c3) * k))
        = (((bboxCenter vs).1 - c1) * k, ((bboxCenter vs).2.1 - c2) * k,
           ((bboxCenter vs).2.2 - c3) * k) := by
  unfold bboxSpans bboxCenter
  simp only [listMinBy_map, listMaxBy_map]
  rw [listMinBy_affine (fun v => v.1) _ c1 k hk (fun v => rfl) vs h,
    listMaxBy_affine (fun v => v.1) _ c1 k hk (fun v => rfl) vs h,
    listMinBy_affine (fun v => v.2.1) _ c2 k hk (fun v => rfl) vs h,
    listMaxBy_affine (fun v => v.2.1) _ c2 k hk (fun v => rfl) vs h,
    listMinBy_affine (fun v => v.2.2) _ c3 k hk (fun v => rfl) vs h,
    listMaxBy_affine (fun v => v.2.2) _ c3 k hk (fun v => rfl) vs h]
  simp only [Prod.mk.injEq]
  refine ⟨⟨by ring, by ring, by ring⟩, ⟨by ring, by ring, by ring⟩⟩

/-- Core normalisation fact: when the original largest bounding-box dimension
clears the `1e-6` guard, the normalised largest dimension is exactly `1`; the
normalised bounding-box centre is exactly the origin. -/
lemma normalize_bbox (vs : List Q3) (h : vs ≠ [])
    (hdim : 1 / 1000000 ≤ bboxMaxDim vs) :
    bboxMaxDim (normalizeVerts vs) = 1 ∧ bboxCenter (normalizeVerts vs) = (0, 0, 0) := by
  have hMpos : 0 < bboxMaxDim vs := lt_of_lt_of_le (by norm_num) hdim
  have hmax : max (1 / 1000000 : ℚ) (bboxMaxDim vs) = bboxMaxDim vs := max_eq_right hdim
  set minX := listMinBy (fun v => v.1) vs with hminX
  set minY := listMinBy (fun v => v.2.1) vs with hminY
  set minZ := listMinBy (fun v => v.2.2) vs with hminZ
  set maxX := listMaxBy (fun v => v.1) vs with hmaxX
  set maxY := listMaxBy (fun v => v.2.1) vs with hmaxY
  set maxZ := listMaxBy (fun v => v.2.2) vs with hmaxZ
  have hspans : bboxSpans vs = (maxX - minX, maxY - minY, maxZ - minZ) := rfl
  have hdimeq : bboxMaxDim vs
      = max (maxX - minX) (max (maxY - minY) (maxZ - minZ)) := rfl
  have hcent : bboxCenter vs
      = ((minX + maxX) / 2, (minY + maxY) / 2, (minZ + maxZ) / 2) := rfl
  set k := 1 / max (1 / 1000000 : ℚ) (max (maxX - minX) (max (maxY - minY) (maxZ - minZ)))
    with hkdef
  have hkM : k = 1 / bboxMaxDim vs := by rw [hkdef, ← hdimeq, hmax]
  have hk : (0 : ℚ) ≤ k := by rw [hkM]; positivity
  have hnv : normalizeVerts vs = vs.map fun v =>
      ((v.1 - (minX + maxX) * (1 / 2)) * k, (v.2.1 - (minY + maxY) * (1 / 2)) * k,
       (v.2.2 - (minZ + maxZ) * (1 / 2)) * k) := rfl
  obtain ⟨hS, hC⟩ := bbox_map_affine ((minX + maxX) * (1 / 2)) ((minY + maxY) * (1 / 2))
    ((minZ + maxZ) * (1 / 2)) k hk vs h
  constructor
  · rw [hnv]
    unfold bboxMaxDim
    rw [hS, hspans]
    show max ((maxX - minX) * k) (max ((maxY - minY) * k) ((maxZ - minZ) * k)) = 1
    rw [← max_mul_of_nonneg _ _ hk, ← max_mul_of_nonneg _ _ hk, ← hdimeq, hkM,
      mul_one_div, div_self hMpos.ne']
  · rw [hnv, hC, hcent]
    dsimp only
    simp only [Prod.mk.injEq]
    refine ⟨by ring, by ring, by ring⟩

/-! ## Claim C1 — error handling of the mesh loader -/

/-- Unfolding lemma for `loadObjWireframe` on a readable file. -/
lemma loadObjWireframe_some (lines : List String) :
    loadObjWireframe (some lines) =
      match parseObj lines with
      | .error _ => Option.none
      | .ok st =>
        if st.1 = [] ∨ st.2 = [] then Option.none
        else some ⟨normalizeVerts st.1, st.2⟩ := rfl

/-- C1, counterexample.  The claim says a malformed numeric token makes the
parser skip only that line and continue, so the first input below (well-formed
triangle plus one vertex line with the non-numeric coordinate `b`) should
still yield the triangle's geometry.  In fact the `float()` `ValueError` is
caught only by the `try/except` wrapped around the *whole* read loop, so the
loader returns no geometry at all, although the same input without the
malformed line parses fine. -/
theorem loadObj_badVertexLine_cex :
    loadObjWireframe (some ["v 0 0 0", "v 1 0 0", "v 0 1 0", "f 1 2 3", "v b 0 0"])
        = Option.none
    ∧ (loadObjWireframe (some ["v 0 0 0", "v 1 0 0", "v 0 1 0", "f 1 2 3"])).isSome
        = true := by
  constructor
  · with_unfolding_all rfl
  · with_unfolding_all rfl

/-- C1, amended.  Malformed *face-index* tokens are skipped token-by-token and
parsing continues; a malformed numeric token on a *vertex* line with at least
four fields aborts the whole parse (the exception propagates to the outer
handler, which returns no geometry); the loader reports load failure exactly
when the input is unreadable, the parse aborted, or the parsed result has zero
vertices or zero edges. -/
theorem loadObj_error_policy :
    (∀ (n : ℕ) (pre post : List (List Char)) (tok : List Char),
        ((splitOnChar '/' tok).headD [] = [] ∨
          parseInt ((splitOnChar '/' tok).headD []) = Option.none) →
        faceIndices n (pre ++ tok :: post) = faceIndices n (pre ++ post)) ∧
    (∀ (pre post : List String) (line : String) (st : List Q3 × List (ℕ × ℕ)),
        parseObj pre = .ok st →
        ['v', ' '].isPrefixOf (stripChars line.toList) = true →
        (pySplit (stripChars line.toList)).length ≥ 4 →
        parseVertex (pySplit (stripChars line.toList)) = .error () →
        parseObj (pre ++ line :: post) = .error ()) ∧
    (∀ lines : List String,
        loadObjWireframe (some lines) = Option.none ↔
          parseObj lines = .error () ∨
            ∃ vs es, parseObj lines = .ok (vs, es) ∧ (vs = [] ∨ es = [])) ∧
    loadObjWireframe Option.none = Option.none := by
  refine ⟨?_, ?_, ?_, rfl⟩
  · intro n pre post tok hbad
    unfold faceIndices
    rw [List.foldl_append, List.foldl_append, List.foldl_cons]
    have hstep : ∀ acc : List ℕ, faceIndexStep n acc tok = acc := by
      intro acc
      simp only [faceIndexStep]
      rcases hbad with hb | hb
      · rw [if_pos hb]
      · by_cases hbase : (splitOnChar '/' tok).headD [] = []
        · rw [if_pos hbase]
        · rw [if_neg hbase, hb]
    rw [hstep]
  · intro pre post line st hpre hv hlen hbad
    unfold parseObj at hpre ⊢
    rw [List.foldlM_append, hpre]
    show parseObjStep st line >>= _ = _
    have hstep : parseObjStep st line = .error () := by
      simp only [parseObjStep, ge_iff_le]
      rw [if_pos hv, if_pos hlen, hbad]
    rw [hstep]
    rfl
  · intro lines
    rw [loadObjWireframe_some]
    cases hp : parseObj lines with
    | error e =>
      cases e
      simp
    | ok st =>
      dsimp only
      by_cases hd : st.1 = [] ∨ st.2 = []
      · rw [if_pos hd]
        simp only [true_iff]
        exact Or.inr ⟨st.1, st.2, rfl, hd⟩
      · rw [if_neg hd]
        simp only [reduceCtorEq, false_iff, not_or]
        refine ⟨by simp, ?_⟩
        rintro ⟨vs, es, hvs, hves⟩
        cases hvs
        exact hd hves

/-! ## Claim C8 — bounding-box normalisation invariant -/

/-- C8, counterexample.  A degenerate mesh — three coincident vertices and
one face — is *accepted* by the loader (nonzero vertices and edges), yet its
bounding box has largest dimension `0`, not `1`: the `max(1e-6, ...)` guard
caps the scale factor instead of rescaling a near-zero box to unit size. -/
theorem loadObj_degenerate_cex :
    loadObjWireframe (some ["v 0 0 0", "v 0 0 0", "v 0 0 0", "f 1 2 3"])
        = some ⟨[(0, 0, 0), (0, 0, 0), (0, 0, 0)], [(0, 1), (1, 2), (0, 2)]⟩
    ∧ bboxMaxDim [((0 : ℚ), (0 : ℚ), (0 : ℚ)), (0, 0, 0), (0, 0, 0)] = 0
    ∧ (0 : ℚ) ≠ 1 := by
  refine ⟨?_, ?_, by norm_num⟩
  · with_unfolding_all rfl
  · with_unfolding_all rfl

/-- C8, amended.  For every mesh input the loader accepts *whose original
largest bounding-box dimension is at least the `1e-6` guard*, the returned
vertex list has largest bounding-box dimension exactly `1` and bounding-box
centre exactly at the origin (exact rational arithmetic stands in for
floating point, so "within tolerance" becomes equality). -/
theorem loadObj_normalization (lines : List String) (wf : Wireframe)
    (vs : List Q3) (es : List (ℕ × ℕ))
    (hp : parseObj lines = .ok (vs, es))
    (hl : loadObjWireframe (some lines) = some wf)
    (hdim : 1 / 1000000 ≤ bboxMaxDim vs) :
    bboxMaxDim wf.vertices = 1 ∧ bboxCenter wf.vertices = (0, 0, 0) := by
  rw [loadObjWireframe_some, hp] at hl
  dsimp only at hl
  by_cases hd : vs = [] ∨ es = []
  · rw [if_pos hd] at hl
    cases hl
  · rw [if_neg hd] at hl
    cases hl
    have hne : vs ≠ [] := fun h => hd (Or.inl h)
    exact normalize_bbox vs hne hdim

/-- C8, witness: a 2×2×2 tetrahedron mesh; the loader accepts it and the
normalised bounding box is the unit box centred at the origin. -/
theorem loadObj_normalization_witness :
    bboxMaxDim (Wireframe.mk
        [(-(1/2), -(1/2), -(1/2)), (1/2, -(1/2), -(1/2)),
         (-(1/2), 1/2, -(1/2)), (-(1/2), -(1/2), 1/2)]
        [(0, 1), (1, 2), (0, 2), (1, 3), (0, 3)]).vertices = 1
    ∧ bboxCenter (Wireframe.mk
        [(-(1/2), -(1/2), -(1/2)), (1/2, -(1/2), -(1/2)),
         (-(1/2), 1/2, -(1/2)), (-(1/2), -(1/2), 1/2)]
        [(0, 1), (1, 2), (0, 2), (1, 3), (0, 3)]).vertices = (0, 0, 0) :=
  loadObj_normalization
    ["v 0 0 0", "v 2 0 0", "v 0 2 0", "v 0 0 2", "f 1 2 3", "f 1 2 4"]
    (Wireframe.mk
      [(-(1/2), -(1/2), -(1/2)), (1/2, -(1/2), -(1/2)),
       (-(1/2), 1/2, -(1/2)), (-(1/2), -(1/2), 1/2)]
      [(0, 1), (1, 2), (0, 2), (1, 3), (0, 3)])
    [(0, 0, 0), (2, 0, 0), (0, 2, 0), (0, 0, 2)]
    [(0, 1), (1, 2), (0, 2), (1, 3), (0, 3)]
    (by with_unfolding_all rfl) (by with_unfolding_all rfl)
    (by with_unfolding_all norm_num [bboxMaxDim, bboxSpans, listMinBy, listMaxBy])

/-! ## Python runtime values and `load_scene_data`

`load_scene_data` (scene3d_widget.py lines 100-157) takes whatever the
persistence layer deserialised, so its input is modelled by a small Python
value type.  Coercions that can raise (`float(x)` on a bad value,
`min(255, x)` comparing an int with a non-number) are `Except Unit`; an
uncaught error aborts the whole load, leaving the widget state unwritten. -/

inductive PyVal where
  | none
  | bool (b : Bool)
  | int (n : ℤ)
  | float (q : ℚ)
  | str (s : String)
  | list (xs : List PyVal)
  | dict (kvs : List (String × PyVal))

/-- `d.get(key, default)` on a dict with unique keys. -/
def pyGet (kvs : List (String × PyVal)) (k : String) (dflt : PyVal) : PyVal :=
  match kvs with
  | [] => dflt
  | kv :: rest => if kv.1 = k then kv.2 else pyGet rest k dflt

/-- Python `str(x)`.  `str()` never raises; for non-string scalars only the
fact that the result differs from tags such as `"model"` ever matters, so
containers render as fixed placeholders rather than full Python `repr`s. -/
def pyStr : PyVal → String
  | .none => "None"
  | .bool b => if b then "True" else "False"
  | .int n => toString n
  | .float q => toString q
  | .str s => s
  | .list _ => "[...]"
  | .dict _ => "dict"

/-- Python `str.lower()`. -/
def pyLower (s : String) : String :=
  ⟨s.toList.map Char.toLower⟩

/-- Python `str.replace("\\", "/")`: a one-character replace is a map. -/
def pathSlashes (s : String) : String :=
  ⟨s.toList.map fun c => if c = '\\' then '/' else c⟩

/-- Python `float(x)`: numbers and numeric strings convert, `bool` counts as
`0`/`1`; anything else raises (`TypeError`/`ValueError`). -/
def pyFloat : PyVal → Except Unit ℚ
  | .int n => .ok (n : ℚ)
  | .float q => .ok q
  | .bool b => .ok (if b then 1 else 0)
  | .str s => match parseFloat s.toList with
    | some q => .ok q
    | Option.none => .error ()
  | _ => .error ()

/-- A value usable in `min`/`max` against an int: numbers only; comparing an
int with a string or container raises `TypeError`. -/
def pyNum : PyVal → Except Unit ℚ
  | .int n => .ok (n : ℚ)
  | .float q => .ok q
  | .bool b => .ok (if b then 1 else 0)
  | _ => .error ()

/-- One colour channel: `int(max(0, min(255, c)))`.  After the clamp the
value is nonnegative, so `int()`'s truncation towards zero is the floor. -/
def pyColorChannel (v : PyVal) : Except Unit ℤ :=
  match pyNum v with
  | .error e => .error e
  | .ok q => .ok ⌊max 0 (min 255 q)⌋

/-- A loaded entity (the dict `load_scene_data` appends).  The default-cube
dicts carry no `model_path`/`wireframe` keys; absence is modelled by `""` and
`none`, matching how the rest of the widget reads them back. -/
structure Entity where
  name : String
  kind : String
  model_path : String
  wireframe : Option Wireframe
  pos : Q3
  rot : Q3
  size : ℚ
  color : ℤ × ℤ × ℤ
deriving DecidableEq

/-- The fallback entity of `reset_scene` / `load_scene_data`. -/
def defaultCube : Entity :=
  { name := "Cube", kind := "cube", model_path := "", wireframe := Option.none,
    pos := (0, 1 / 2, 0), rot := (0, 0, 0), size := 1, color := (220, 220, 220) }

/-- `os.path.join(assets_root, model_path)` for the paths that occur here. -/
def joinPath (root p : String) : String :=
  root ++ "/" ++ p

/-- Truthiness of `self.assets_root` (`None` and `""` are falsy). -/
def rootTruthy : Option String → Bool
  | Option.none => false
  | some r => r ≠ ""

/-- The three defaulted-and-shape-checked list fields (`pos`, `rot`,
`color`): a non-list or a list shorter than 3 is replaced wholesale. -/
def listField (v : PyVal) (dflt : List PyVal) : List PyVal :=
  match v with
  | .list xs => if xs.length < 3 then dflt else xs
  | _ => dflt

/-- The fallible numeric coercions of one record, in the order CPython
evaluates them inside the appended dict literal: `pos`, `rot`, `size`,
`color`.  The first raise aborts `load_scene_data`. -/
def loadNumbers (raw : List (String × PyVal)) :
    Except Unit (Q3 × Q3 × ℚ × (ℤ × ℤ × ℤ)) := do
  let posL := listField (pyGet raw "pos" (.list [.float 0, .float (1 / 2), .float 0]))
    [.float 0, .float (1 / 2), .float 0]
  let rotL := listField (pyGet raw "rot" (.list [.float 0, .float 0, .float 0]))
    [.float 0, .float 0, .float 0]
  let colorL := listField (pyGet raw "color" (.list [.int 220, .int 220, .int 220]))
    [.int 220, .int 220, .int 220]
  let px ← pyFloat (posL.getD 0 .none)
  let py ← pyFloat (posL.getD 1 .none)
  let pz ← pyFloat (posL.getD 2 .none)
  let rx ← pyFloat (rotL.getD 0 .none)
  let ry ← pyFloat (rotL.getD 1 .none)
  let rz ← pyFloat (rotL.getD 2 .none)
  let sz ← pyFloat (pyGet raw "size" (.float 1))
  let c0 ← pyColorChannel (colorL.getD 0 .none)
  let c1 ← pyColorChannel (colorL.getD 1 .none)
  let c2 ← pyColorChannel (colorL.getD 2 .none)
  pure ((px, py, pz), (rx, ry, rz), sz, (c0, c1, c2))

/-- The string/wireframe fields of one record (these never raise). -/
def recordKind (raw : List (String × PyVal)) : String :=
  pyLower (pyStr (pyGet raw "kind" (.str "cube")))

/-- `str(raw.get("model_path", "")).replace("\\", "/")`. -/
def recordPath (raw : List (String × PyVal)) : String :=
  pathSlashes (pyStr (pyGet raw "model_path" (.str "")))

/-- The wireframe cached on the record:`_load_obj_wireframe` runs only for a
`model` record with a nonempty `.obj` path under a truthy assets root whose
file exists; otherwise the entity keeps `wireframe = None`. -/
def recordWireframe (fs : String → Option (List String)) (root : Option String)
    (raw : List (String × PyVal)) : Option Wireframe :=
  if recordKind raw = "model" ∧ recordPath raw ≠ "" ∧
      ['.', 'o', 'b', 'j'].isSuffixOf (pyLower (recordPath raw)).toList ∧
      rootTruthy root then
    if (fs (joinPath (root.getD "") (recordPath raw))).isSome then
      loadObjWireframe (fs (joinPath (root.getD "") (recordPath raw)))
    else Option.none
  else Option.none

/-- One iteration of `load_scene_data`'s loop body on a dict record
(index `i` comes from `enumerate`). -/
def loadEntityRecord (fs : String → Option (List String)) (root : Option String)
    (i : ℕ) (raw : List (String × PyVal)) : Except Unit Entity :=
  match loadNumbers raw with
  | .error e => .error e
  | .ok nums =>
    let kind := recordKind raw
    .ok { name := pyStr (pyGet raw "name" (.str ("Entity" ++ toString (i + 1)))),
          kind := if kind = "model" then "model" else "cube",
          model_path := if kind = "model" then recordPath raw else "",
          wireframe := recordWireframe fs root raw,
          pos := nums.1,
          rot := nums.2.1,
          size := max (1 / 100) nums.2.2.1,
          color := nums.2.2.2 }

/-- `for i, raw in enumerate(scene_entities)`: non-dict entries are skipped,
`i` still advances; the first coercion error aborts the whole loop. -/
def loadEntities (fs : String → Option (List String)) (root : Option String)
    (i : ℕ) : List PyVal → Except Unit (List Entity)
  | [] => .ok []
  | raw :: rest =>
    match raw with
    | .dict kvs =>
      match loadEntityRecord fs root i kvs with
      | .error e => .error e
      | .ok e =>
        match loadEntities fs root (i + 1) rest with
        | .error e2 => .error e2
        | .ok es => .ok (e :: es)
    | _ => loadEntities fs root (i + 1) rest

/-- `load_scene_data`: on success returns the new
(`self.entities`, `self.selected_index`); an error is the uncaught Python
exception, which leaves both untouched. -/
def loadSceneData (fs : String → Option (List String)) (root : Option String)
    (input : PyVal) : Except Unit (List Entity × ℤ) :=
  match (match input with
         | .list xs => loadEntities fs root 0 xs
         | _ => .ok []) with
  | .error e => .error e
  | .ok loaded =>
    let entities := if loaded.isEmpty then [defaultCube] else loaded
    .ok (entities, if entities.isEmpty then -1 else 0)

/-! ## Claim C4 — scene load fallback -/

/-- A list whose members are all non-dicts contributes no entities. -/
lemma loadEntities_skipAll (fs : String → Option (List String))
    (root : Option String) (xs : List PyVal)
    (h : ∀ x ∈ xs, ∀ kvs, x ≠ .dict kvs) :
    ∀ i, loadEntities fs root i xs = .ok [] := by
  induction xs with
  | nil => intro i; rfl
  | cons x rest ih =>
    intro i
    have hx : ∀ kvs, x ≠ .dict kvs := h x (List.mem_cons_self x rest)
    have hrest : ∀ y ∈ rest, ∀ kvs, y ≠ .dict kvs :=
      fun y hy => h y (List.mem_cons_of_mem x hy)
    cases x with
    | dict kvs => exact absurd rfl (hx kvs)
    | none => exact ih hrest (i + 1)
    | bool b => exact ih hrest (i + 1)
    | int n => exact ih hrest (i + 1)
    | float q => exact ih hrest (i + 1)
    | str s => exact ih hrest (i + 1)
    | list ys => exact ih hrest (i + 1)

/-- C4, counterexample.  A scene list holding one dict record whose `pos`
holds a non-numeric string makes `float(pos[0])` raise: the exception
propagates out of `load_scene_data`, so neither the entity list nor the
selected index is written — against the claim that *every* input leaves a
non-empty store with selection index 0 (and against reading this record as
"no well-formed record", which should have produced the default cube). -/
theorem loadSceneData_crash_cex :
    loadSceneData (fun _ => Option.none) Option.none
      (.list [.dict [("pos", .list [.str "x", .int 0, .int 0])]]) = .error () := by
  with_unfolding_all rfl

/-- C4, amended.  If the input is not a list, is an empty list, or contains
no dict records, the store afterwards is exactly one default cube; and for
every input on which the load *completes* (no coercion error), the store is
non-empty and the selected index is 0.  An input whose record coercions raise
aborts the load and writes nothing. -/
theorem loadSceneData_fallback :
    (∀ (fs : String → Option (List String)) (root : Option String) (v : PyVal),
        (∀ xs, v ≠ .list xs) → loadSceneData fs root v = .ok ([defaultCube], 0)) ∧
    (∀ (fs : String → Option (List String)) (root : Option String)
        (xs : List PyVal), (∀ x ∈ xs, ∀ kvs, x ≠ .dict kvs) →
        loadSceneData fs root (.list xs) = .ok ([defaultCube], 0)) ∧
    (∀ (fs : String → Option (List String)) (root : Option String) (v : PyVal)
        (es : List Entity) (i : ℤ),
        loadSceneData fs root v = .ok (es, i) → es ≠ [] ∧ i = 0) := by
  refine ⟨?_, ?_, ?_⟩
  · intro fs root v hv
    cases v
    case list xs => exact absurd rfl (hv xs)
    all_goals rfl
  · intro fs root xs hxs
    unfold loadSceneData
    dsimp only
    rw [loadEntities_skipAll fs root xs hxs 0]
    rfl
  · intro fs root v es i h
    unfold loadSceneData at h
    cases hm : (match v with
                | PyVal.list xs => loadEntities fs root 0 xs
                | _ => Except.ok []) with
    | error e => rw [hm] at h; cases h
    | ok loaded =>
      rw [hm] at h
      dsimp only at h
      cases loaded with
      | nil =>
        simp only [List.isEmpty_nil, if_true] at h
        cases h
        exact ⟨by simp, by simp⟩
      | cons a l =>
        simp only [List.isEmpty_cons, if_false, Bool.false_eq_true] at h
        cases h
        exact ⟨by simp, by simp⟩

/-! ## Real-valued geometry

The camera math and per-frame transforms of the widget run on Python floats;
they are embedded over `ℝ` (the standard exact idealisation), so this part of
the development is noncomputable: concrete evaluations go through `simp` /
`norm_num` facts instead of kernel computation. -/

noncomputable section
open scoped Classical

/-- A 3D point/vector (Python `[x, y, z]`). -/
@[ext]
structure V3 where
  x : ℝ
  y : ℝ
  z : ℝ

/-- Cast a rational vertex (parsed geometry) into the real model. -/
def q3r (v : Q3) : V3 :=
  ⟨(v.1 : ℝ), (v.2.1 : ℝ), (v.2.2 : ℝ)⟩

/-- `_rotate_local`: elementary rotations applied in the fixed order
X, then Y, then Z. -/
def rotateLocal (x y z : ℝ) (rot : V3) : V3 :=
  let cx := Real.cos rot.x
  let sx := Real.sin rot.x
  let cy := Real.cos rot.y
  let sy := Real.sin rot.y
  let cz := Real.cos rot.z
  let sz := Real.sin rot.z
  let x1 := x
  let y1 := y * cx - z * sx
  let z1 := y * sx + z * cx
  let x2 := x1 * cy + z1 * sy
  let y2 := y1
  let z2 := -x1 * sy + z1 * cy
  ⟨x2 * cz - y2 * sz, x2 * sz + y2 * cz, z2⟩

/-- `_transform_local`: scale the local point, rotate it, translate by the
entity position. -/
def transformLocal (pos : V3) (size : ℝ) (rot : V3) (l : V3) : V3 :=
  let r := rotateLocal (l.x * size) (l.y * size) (l.z * size) rot
  ⟨pos.x + r.x, pos.y + r.y, pos.z + r.z⟩

/-- `_cube_vertices`: half-extents from the entity's size; the transform is
called with `size = 1.0` because the scaling is already applied. -/
def cubeVertices (ent : Entity) : List V3 :=
  let h : ℝ := (ent.size : ℝ) * 0.5
  [V3.mk (-h) (-h) (-h), V3.mk h (-h) (-h), V3.mk h h (-h), V3.mk (-h) h (-h),
   V3.mk (-h) (-h) h, V3.mk h (-h) h, V3.mk h h h, V3.mk (-h) h h].map
    (transformLocal (q3r ent.pos) 1 (q3r ent.rot))

/-- The 12 edges of the procedural cube wireframe. -/
def cubeEdges : List (ℕ × ℕ) :=
  [(0, 1), (1, 2), (2, 3), (3, 0),
   (4, 5), (5, 6), (6, 7), (7, 4),
   (0, 4), (1, 5), (2, 6), (3, 7)]

/-- `_entity_wireframe`: a `model` entity with cached nonempty geometry
renders its transformed mesh; everything else (including a mesh whose load
failed, `wireframe = None`) falls back to the procedural cube. -/
def entityWireframe (ent : Entity) : List V3 × List (ℕ × ℕ) :=
  if ent.kind = "model" then
    match ent.wireframe with
    | some wf =>
      if wf.vertices ≠ [] ∧ wf.edges ≠ [] then
        (wf.vertices.map fun v =>
          transformLocal (q3r ent.pos) (ent.size : ℝ) (q3r ent.rot) (q3r v),
         wf.edges)
      else (cubeVertices ent, cubeEdges)
    | Option.none => (cubeVertices ent, cubeEdges)
  else (cubeVertices ent, cubeEdges)

/-! ## Claim C10 — mesh entity with unloadable geometry renders as a cube -/

/-- C10.  A `model` record whose wireframe lookup produced nothing (missing
file, unreadable file, or degenerate mesh — `recordWireframe` is `none` in
all three cases) still loads: the entity keeps the mesh kind and its asset
path, is not dropped from a singleton scene list, and its per-frame wireframe
lookup returns the procedural 8-vertex, 12-edge cube. -/
theorem modelWithoutGeometry_rendersCube (fs : String → Option (List String))
    (root : Option String) (i : ℕ) (raw : List (String × PyVal)) (ent : Entity)
    (hk : recordKind raw = "model")
    (hw : recordWireframe fs root raw = Option.none)
    (hload : loadEntityRecord fs root i raw = .ok ent) :
    ent.kind = "model" ∧ ent.model_path = recordPath raw ∧
    ent.wireframe = Option.none ∧
    entityWireframe ent = (cubeVertices ent, cubeEdges) ∧
    (entityWireframe ent).1.length = 8 ∧ (entityWireframe ent).2.length = 12 ∧
    loadEntities fs root i [.dict raw] = .ok [ent] := by
  unfold loadEntityRecord at hload
  cases hn : loadNumbers raw with
  | error e => rw [hn] at hload; cases hload
  | ok nums =>
    rw [hn] at hload
    dsimp only at hload
    cases hload
    refine ⟨by simp [hk], by simp [hk], by simp [hw], ?_, ?_, ?_, ?_⟩
    · simp [entityWireframe, hk, hw]
    · simp [entityWireframe, hk, hw, cubeVertices]
    · simp [entityWireframe, hk, hw, cubeEdges]
    · simp [loadEntities, loadEntityRecord, hn]

/-- A scene record of mesh kind pointing at a file the filesystem does not
have (every lookup below runs against the empty filesystem `fun _ => none`). -/
def missingMeshRecord : List (String × PyVal) :=
  [("kind", .str "model"), ("model_path", .str "missing.obj")]

/-- The entity `load_scene_data` builds for `missingMeshRecord`. -/
def missingMeshEntity : Entity :=
  { name := "Entity1", kind := "model", model_path := "missing.obj",
    wireframe := Option.none, pos := (0, 1 / 2, 0), rot := (0, 0, 0),
    size := 1, color := (220, 220, 220) }

/-- C10, witness: the missing-file mesh record at index 0 of a singleton
scene list. -/
theorem modelWithoutGeometry_rendersCube_witness :
    missingMeshEntity.kind = "model" ∧
    missingMeshEntity.model_path = recordPath missingMeshRecord ∧
    missingMeshEntity.wireframe = Option.none ∧
    entityWireframe missingMeshEntity = (cubeVertices missingMeshEntity, cubeEdges) ∧
    (entityWireframe missingMeshEntity).1.length = 8 ∧
    (entityWireframe missingMeshEntity).2.length = 12 ∧
    loadEntities (fun _ => Option.none) (some "assets") 0 [.dict missingMeshRecord]
      = .ok [missingMeshEntity] :=
  modelWithoutGeometry_rendersCube (fun _ => Option.none) (some "assets") 0
    missingMeshRecord missingMeshEntity
    (by with_unfolding_all rfl) (by with_unfolding_all rfl)
    (by with_unfolding_all rfl)

end

/-! ## Widget state and the camera model

State mirrors the `Scene3DWidget` attributes the event handlers read and
write.  Pointer coordinates are `ℤ` (Qt pixel ints), geometry is `ℝ`. -/

/-- A gizmo / compass / drag-session axis name (`"x"`, `"y"`, `"z"`). -/
inductive Axis where
  | x
  | y
  | z
deriving DecidableEq

/-- The `self.drag_mode` strings (`None` is `Option.none`). -/
inductive DragMode where
  | orbit
  | pan
  | viewGizmoOrbit
  | moveEntity
  | rotateAxis
deriving DecidableEq

/-- Qt mouse buttons as the handlers distinguish them. -/
inductive MouseButton where
  | left
  | right
  | middle
  | aux
deriving DecidableEq

/-- An integer `QRect` (x, y, width, height). -/
structure Rect where
  x : ℤ
  y : ℤ
  w : ℤ
  h : ℤ

/-- `QRect.contains(point)`: the right/bottom edge is `x + width - 1`. -/
def Rect.containsPt (r : Rect) (px py : ℤ) : Prop :=
  r.x ≤ px ∧ px ≤ r.x + r.w - 1 ∧ r.y ≤ py ∧ py ≤ r.y + r.h - 1

noncomputable section
open scoped Classical

/-- The per-entity fields the pointer handlers touch (`pos`, `rot`, `size`;
the visual fields never feed back into the state machine). -/
structure EntityR where
  pos : V3
  rot : V3
  size : ℝ

/-- The widget state. `width`/`height` stand for `self.width()` /
`self.height()`; the handle dictionaries are the hit regions the paint code
published for the current frame. -/
structure SceneState where
  camera_target : V3
  camera_yaw : ℝ
  camera_pitch : ℝ
  camera_distance : ℝ
  fov_deg : ℝ
  drag_mode : Option DragMode
  last_mouse_pos : Option (ℤ × ℤ)
  drag_entity_index : ℤ
  drag_plane_y : ℝ
  drag_offset_xz : ℝ × ℝ
  rotate_axis : Option Axis
  gizmo_handles : List (Axis × (ℝ × ℝ) × (ℝ × ℝ))
  view_axis_handles : List (Axis × ℝ × ℝ)
  reset_button_rect : Rect
  corner_gizmo_center : ℝ × ℝ
  corner_gizmo_radius : ℝ
  view_gizmo_click_axis : Option Axis
  view_gizmo_dragged : Bool
  entities : List EntityR
  selected_index : ℤ
  width : ℕ
  height : ℕ

/-- `self.entities[i]` at the in-bounds indices the handlers guard; the
default is never reached under those guards. -/
def entGet (l : List EntityR) (i : ℤ) : EntityR :=
  (l[i.toNat]?).getD ⟨⟨0, 0, 0⟩, ⟨0, 0, 0⟩, 1⟩

/-- `math.radians`. -/
def radians (x : ℝ) : ℝ :=
  x * Real.pi / 180

/-- `_camera_vectors`: camera position from spherical coordinates around the
target, then forward / right / up with `max(1e-6, ·)` guards on the two
normalisations. -/
def cameraVectors (s : SceneState) : V3 × V3 × V3 × V3 :=
  let cp := Real.cos s.camera_pitch
  let sp := Real.sin s.camera_pitch
  let cy := Real.cos s.camera_yaw
  let sy := Real.sin s.camera_yaw
  let camPos : V3 :=
    ⟨s.camera_target.x + s.camera_distance * cp * sy,
     s.camera_target.y + s.camera_distance * sp,
     s.camera_target.z + s.camera_distance * cp * cy⟩
  let fx := s.camera_target.x - camPos.x
  let fy := s.camera_target.y - camPos.y
  let fz := s.camera_target.z - camPos.z
  let fl := max 1e-6 (Real.sqrt (fx * fx + fy * fy + fz * fz))
  let forward : V3 := ⟨fx / fl, fy / fl, fz / fl⟩
  let up : V3 := ⟨0, 1, 0⟩
  let rx := forward.y * up.z - forward.z * up.y
  let ry := forward.z * up.x - forward.x * up.z
  let rz := forward.x * up.y - forward.y * up.x
  let rl := max 1e-6 (Real.sqrt (rx * rx + ry * ry + rz * rz))
  let right : V3 := ⟨rx / rl, ry / rl, rz / rl⟩
  let upv : V3 :=
    ⟨right.y * forward.z - right.z * forward.y,
     right.z * forward.x - right.x * forward.z,
     right.x * forward.y - right.y * forward.x⟩
  (camPos, forward, right, upv)

/-- `_project_point`: camera-space coordinates of the point, `None` behind
the `0.05` near epsilon, otherwise the screen position and view depth. -/
def projectPoint (s : SceneState) (p : V3) : Option (ℝ × ℝ × ℝ) :=
  let w : ℝ := (max 1 s.width : ℕ)
  let h : ℝ := (max 1 s.height : ℕ)
  let aspect := w / max 1 h
  let tanHalf := Real.tan (radians s.fov_deg * 0.5)
  let cv := cameraVectors s
  let camPos := cv.1
  let forward := cv.2.1
  let right := cv.2.2.1
  let upv := cv.2.2.2
  let rx := p.x - camPos.x
  let ry := p.y - camPos.y
  let rz := p.z - camPos.z
  let vx := rx * right.x + ry * right.y + rz * right.z
  let vy := rx * upv.x + ry * upv.y + rz * upv.z
  let vz := rx * forward.x + ry * forward.y + rz * forward.z
  if vz ≤ 0.05 then Option.none
  else
    let ndcX := vx / (vz * tanHalf * aspect)
    let ndcY := vy / (vz * tanHalf)
    some ((ndcX * 0.5 + 0.5) * w, (0.5 - ndcY * 0.5) * h, vz)

/-- `_ray_from_screen`: the world-space ray through a pixel — camera position
plus the normalised (with a `max(1e-6, ·)` guard) pixel direction. -/
def rayFromScreen (s : SceneState) (sx sy : ℝ) : V3 × V3 :=
  let w : ℝ := (max 1 s.width : ℕ)
  let h : ℝ := (max 1 s.height : ℕ)
  let aspect := w / max 1 h
  let tanHalf := Real.tan (radians s.fov_deg * 0.5)
  let ndcX := (2 * sx / w) - 1
  let ndcY := 1 - (2 * sy / h)
  let cv := cameraVectors s
  let camPos := cv.1
  let forward := cv.2.1
  let right := cv.2.2.1
  let upv := cv.2.2.2
  let dx := forward.x + right.x * ndcX * tanHalf * aspect + upv.x * ndcY * tanHalf
  let dy := forward.y + right.y * ndcX * tanHalf * aspect + upv.y * ndcY * tanHalf
  let dz := forward.z + right.z * ndcX * tanHalf * aspect + upv.z * ndcY * tanHalf
  let dlen := max 1e-6 (Real.sqrt (dx * dx + dy * dy + dz * dz))
  (camPos, ⟨dx / dlen, dy / dlen, dz / dlen⟩)

/-- `_intersect_plane_y`: `None` for a (near-)parallel ray or an intersection
at `t ≤ 0` behind the origin; otherwise the point on the plane. -/
def intersectPlaneY (s : SceneState) (sx sy planeY : ℝ) : Option V3 :=
  let r := rayFromScreen s sx sy
  let origin := r.1
  let direction := r.2
  if |direction.y| < 1e-6 then Option.none
  else
    let t := (planeY - origin.y) / direction.y
    if t ≤ 0 then Option.none
    else some ⟨origin.x + direction.x * t, origin.y + direction.y * t,
               origin.z + direction.z * t⟩

/-- `_distance_to_segment` from point `(px, py)` to segment
`(ax, ay)-(qx, qy)`. -/
def distanceToSegment (px py ax ay qx qy : ℝ) : ℝ :=
  let vx := qx - ax
  let vy := qy - ay
  let segLen2 := vx * vx + vy * vy
  if segLen2 ≤ 1e-6 then Real.sqrt ((px - ax) * (px - ax) + (py - ay) * (py - ay))
  else
    let t := max 0 (min 1 (((px - ax) * vx + (py - ay) * vy) / segLen2))
    let cx := ax + vx * t
    let cy := ay + vy * t
    Real.sqrt ((px - cx) * (px - cx) + (py - cy) * (py - cy))

/-- `reset_camera_view` (also the press handler's reset-button action). -/
def resetCameraView (s : SceneState) : SceneState :=
  { s with camera_target := ⟨0, 0, 0⟩, camera_distance := 10,
           camera_yaw := 0.8, camera_pitch := 0.55 }

/-- `_align_camera_to_axis`. -/
def alignCameraToAxis (s : SceneState) (a : Axis) : SceneState :=
  match a with
  | .x => { s with camera_yaw := Real.pi * 0.5, camera_pitch := 0 }
  | .y => { s with camera_pitch := 1.25 }
  | .z => { s with camera_yaw := 0, camera_pitch := 0 }

/-! ### `mousePressEvent` -/

/-- The loop over `view_axis_handles`: first handle within 14 px wins. -/
def findAxisHandleHit : List (Axis × ℝ × ℝ) → ℤ → ℤ → Option Axis
  | [], _, _ => Option.none
  | (a, hx, hy) :: rest, px, py =>
    if (hx - (px : ℝ)) * (hx - (px : ℝ)) + (hy - (py : ℝ)) * (hy - (py : ℝ))
        ≤ 14 * 14 then some a
    else findAxisHandleHit rest px py

/-- The loop over `gizmo_handles`: a handle hit within 16 px of the end
marker, or within 8 px of the axis segment. -/
def findGizmoHit : List (Axis × (ℝ × ℝ) × (ℝ × ℝ)) → ℤ → ℤ → Option Axis
  | [], _, _ => Option.none
  | (a, se) :: rest, px, py =>
    let nearHandle := (se.2.1 - (px : ℝ)) * (se.2.1 - (px : ℝ)) +
        (se.2.2 - (py : ℝ)) * (se.2.2 - (py : ℝ)) ≤ 16 * 16
    let nearAxisLine := distanceToSegment (px : ℝ) (py : ℝ)
        se.1.1 se.1.2 se.2.1 se.2.2 ≤ 8
    if nearHandle ∨ nearAxisLine then some a
    else findGizmoHit rest px py

/-- The final selection loop: nearest entity whose projected origin is within
18 px (strict improvement over the running best, `-1` when none). -/
def pickNearest (s : SceneState) (px py : ℤ) : SceneState :=
  let r := s.entities.enum.foldl
    (fun acc ie =>
      match projectPoint s ie.2.pos with
      | Option.none => acc
      | some p =>
        let dx := p.1 - (px : ℝ)
        let dy := p.2.1 - (py : ℝ)
        if dx * dx + dy * dy < acc.2 then ((ie.1 : ℤ), dx * dx + dy * dy) else acc)
    ((-1 : ℤ), (18 * 18 : ℝ))
  { s with selected_index := r.1 }

/-- Branch 7 of the press dispatch: start a `move_entity` session — plane at
the entity's current height, offset from the ray/plane hit (or zero when the
ray misses the plane). -/
def startMoveDrag (s : SceneState) (px py : ℤ) : SceneState :=
  let s1 := { s with drag_entity_index := s.selected_index,
                     drag_mode := some DragMode.moveEntity }
  let s2 := { s1 with drag_plane_y := (entGet s1.entities s1.drag_entity_index).pos.y }
  match intersectPlaneY s2 (px : ℝ) (py : ℝ) s2.drag_plane_y with
  | some hit =>
    { s2 with drag_offset_xz :=
        ((entGet s2.entities s2.drag_entity_index).pos.x - hit.x,
         (entGet s2.entities s2.drag_entity_index).pos.z - hit.z) }
  | Option.none => { s2 with drag_offset_xz := (0, 0) }

/-- The left-button cascade of `mousePressEvent` (dispatch priority 3-8). -/
def leftPress (s : SceneState) (px py : ℤ) : SceneState :=
  if s.reset_button_rect.containsPt px py then resetCameraView s
  else
    match findAxisHandleHit s.view_axis_handles px py with
    | some a =>
      { s with drag_mode := some DragMode.viewGizmoOrbit,
               view_gizmo_click_axis := some a, view_gizmo_dragged := false }
    | Option.none =>
      let cdx := s.corner_gizmo_center.1 - (px : ℝ)
      let cdy := s.corner_gizmo_center.2 - (py : ℝ)
      if cdx * cdx + cdy * cdy ≤ s.corner_gizmo_radius * s.corner_gizmo_radius then
        { s with drag_mode := some DragMode.viewGizmoOrbit,
                 view_gizmo_click_axis := Option.none, view_gizmo_dragged := false }
      else
        let selectedCenter : Option (ℝ × ℝ × ℝ) :=
          if 0 ≤ s.selected_index ∧ s.selected_index < s.entities.length then
            projectPoint s (entGet s.entities s.selected_index).pos
          else Option.none
        match (if 0 ≤ s.selected_index then findGizmoHit s.gizmo_handles px py
               else Option.none) with
        | some a =>
          { s with drag_entity_index := s.selected_index,
                   rotate_axis := some a, drag_mode := some DragMode.rotateAxis }
        | Option.none =>
          match selectedCenter with
          | some c =>
            let dxs := c.1 - (px : ℝ)
            let dys := c.2.1 - (py : ℝ)
            if dxs * dxs + dys * dys ≤ 24 * 24 then startMoveDrag s px py
            else pickNearest s px py
          | Option.none => pickNearest s px py

/-- `mousePressEvent`: record the pointer, then dispatch on the button. -/
def mousePressEvent (s : SceneState) (b : MouseButton) (px py : ℤ) : SceneState :=
  let s := { s with last_mouse_pos := some (px, py) }
  match b with
  | .right => { s with drag_mode := some DragMode.orbit }
  | .middle => { s with drag_mode := some DragMode.pan }
  | .left => leftPress s px py
  | .aux => s

/-! ### `mouseMoveEvent` and `mouseReleaseEvent` -/

/-- `mouseMoveEvent`: ignored without a stored position and an active mode;
otherwise the per-mode update on the pointer delta. -/
def mouseMoveEvent (s : SceneState) (px py : ℤ) : SceneState :=
  match s.last_mouse_pos, s.drag_mode with
  | some lp, some mode =>
    let dx : ℤ := px - lp.1
    let dy : ℤ := py - lp.2
    let s := { s with last_mouse_pos := some (px, py) }
    match mode with
    | .orbit =>
      { s with camera_yaw := s.camera_yaw + (dx : ℝ) * 0.008,
               camera_pitch :=
                 max (-1.25) (min 1.25 (s.camera_pitch - (dy : ℝ) * 0.008)) }
    | .pan =>
      let cv := cameraVectors s
      let right := cv.2.2.1
      let upv := cv.2.2.2
      let scale := 0.005 * s.camera_distance
      { s with camera_target :=
          ⟨s.camera_target.x - right.x * (dx : ℝ) * scale,
           s.camera_target.y - upv.y * (dy : ℝ) * scale,
           s.camera_target.z - right.z * (dx : ℝ) * scale⟩ }
    | .viewGizmoOrbit =>
      let s := if 1 < |dx| + |dy| then { s with view_gizmo_dragged := true } else s
      { s with camera_yaw := s.camera_yaw + (dx : ℝ) * 0.010,
               camera_pitch :=
                 max (-1.25) (min 1.25 (s.camera_pitch - (dy : ℝ) * 0.010)) }
    | .moveEntity =>
      if 0 ≤ s.drag_entity_index ∧ s.drag_entity_index < s.entities.length then
        match intersectPlaneY s (px : ℝ) (py : ℝ) s.drag_plane_y with
        | some hit =>
          let ent := entGet s.entities s.drag_entity_index
          let ent' : EntityR :=
            { ent with pos := ⟨hit.x + s.drag_offset_xz.1, ent.pos.y,
                               hit.z + s.drag_offset_xz.2⟩ }
          { s with entities := s.entities.set s.drag_entity_index.toNat ent' }
        | Option.none => s
      else s
    | .rotateAxis =>
      if 0 ≤ s.drag_entity_index ∧ s.drag_entity_index < s.entities.length then
        let ent := entGet s.entities s.drag_entity_index
        let rot := ent.rot
        let rot' : V3 :=
          match s.rotate_axis.getD Axis.y with
          | .x => ⟨rot.x + (-(dy : ℝ) + (dx : ℝ) * 0.35) * 0.01, rot.y, rot.z⟩
          | .y => ⟨rot.x, rot.y + ((dx : ℝ) + (dy : ℝ) * 0.35) * 0.01, rot.z⟩
          | .z => ⟨rot.x, rot.y, rot.z + ((dx : ℝ) - (dy : ℝ)) * 0.008⟩
        let ent' : EntityR := { ent with rot := rot' }
        { s with entities := s.entities.set s.drag_entity_index.toNat ent' }
      else s
  | _, _ => s

/-- A discrete camera interaction: a pointer-move (in whatever mode the
state is in), an align-to-axis click, or the reset-view action. -/
inductive CamAct where
  | move (px py : ℤ)
  | align (a : Axis)
  | reset

/-- Apply one camera interaction to the widget state. -/
def camStep (s : SceneState) : CamAct → SceneState
  | .move px py => mouseMoveEvent s px py
  | .align a => alignCameraToAxis s a
  | .reset => resetCameraView s

/-- `mouseReleaseEvent`: a compass click (targeted axis, never dragged)
aligns the camera; every transient session field is then cleared. -/
def mouseReleaseEvent (s : SceneState) : SceneState :=
  let s :=
    if s.drag_mode = some DragMode.viewGizmoOrbit then
      match s.view_gizmo_click_axis with
      | some a => if s.view_gizmo_dragged = false then alignCameraToAxis s a else s
      | Option.none => s
    else s
  { s with drag_mode := Option.none, drag_entity_index := -1,
           rotate_axis := Option.none, view_gizmo_click_axis := Option.none,
           view_gizmo_dragged := false, last_mouse_pos := Option.none }

/-- The widget state right after `__init__` / `reset_scene` (viewport size
800×600; the single default cube sits at `(0, 0.5, 0)`). -/
def initState : SceneState :=
  { camera_target := ⟨0, 0, 0⟩, camera_yaw := 0.8, camera_pitch := 0.55,
    camera_distance := 10, fov_deg := 60,
    drag_mode := Option.none, last_mouse_pos := Option.none,
    drag_entity_index := -1, drag_plane_y := 0, drag_offset_xz := (0, 0),
    rotate_axis := Option.none, gizmo_handles := [], view_axis_handles := [],
    reset_button_rect := ⟨0, 0, 0, 0⟩, corner_gizmo_center := (0, 0),
    corner_gizmo_radius := 0, view_gizmo_click_axis := Option.none,
    view_gizmo_dragged := false,
    entities := [⟨⟨0, 0.5, 0⟩, ⟨0, 0, 0⟩, 1⟩], selected_index := 0,
    width := 800, height := 600 }

/-! ### The camera basis in closed form

Under the program's own invariants (pitch inside the clamp range, distance
inside the zoom clamp range) the two `max(1e-6, ·)` guards in
`_camera_vectors` are inert and the basis is the expected orthonormal frame. -/

lemma norm_div_helper (a b c D : ℝ) (hD : 0 < D) (hmax : (1e-6 : ℝ) ≤ D)
    (h : a * a + b * b + c * c = D ^ 2) :
    max (1e-6 : ℝ) (Real.sqrt (a * a + b * b + c * c)) = D := by
  rw [h, Real.sqrt_sq hD.le]
  exact max_eq_right hmax

lemma cameraVectors_explicit (s : SceneState)
    (hpitch : |s.camera_pitch| ≤ 1.25) (hdist : 2 ≤ s.camera_distance) :
    cameraVectors s =
      (⟨s.camera_target.x + s.camera_distance * Real.cos s.camera_pitch * Real.sin s.camera_yaw,
        s.camera_target.y + s.camera_distance * Real.sin s.camera_pitch,
        s.camera_target.z + s.camera_distance * Real.cos s.camera_pitch * Real.cos s.camera_yaw⟩,
       ⟨-(Real.cos s.camera_pitch * Real.sin s.camera_yaw),
        -(Real.sin s.camera_pitch),
        -(Real.cos s.camera_pitch * Real.cos s.camera_yaw)⟩,
       ⟨Real.cos s.camera_yaw, 0, -(Real.sin s.camera_yaw)⟩,
       ⟨-(Real.sin s.camera_pitch * Real.sin s.camera_yaw),
        Real.cos s.camera_pitch,
        -(Real.sin s.camera_pitch * Real.cos s.camera_yaw)⟩) := by
  set cp := Real.cos s.camera_pitch with hcpdef
  set sp := Real.sin s.camera_pitch with hspdef
  set cy := Real.cos s.camera_yaw with hcydef
  set sy := Real.sin s.camera_yaw with hsydef
  set T := s.camera_target with hTdef
  set d := s.camera_distance with hddef
  have hpy : sy ^ 2 + cy ^ 2 = 1 := Real.sin_sq_add_cos_sq _
  have hpp : sp ^ 2 + cp ^ 2 = 1 := Real.sin_sq_add_cos_sq _
  have habs := abs_le.mp hpitch
  have hsq : s.camera_pitch ^ 2 ≤ 1.5625 := by nlinarith [habs.1, habs.2]
  have hcpbound : (0.21875 : ℝ) ≤ cp := by
    have h2 := @Real.one_sub_sq_div_two_le_cos s.camera_pitch
    rw [← hcpdef] at h2
    linarith
  have hd0 : (0 : ℝ) < d := by linarith
  have hcp0 : (0 : ℝ) < cp := by linarith
  unfold cameraVectors
  dsimp only
  rw [norm_div_helper (T.x - (T.x + d * cp * sy)) (T.y - (T.y + d * sp))
      (T.z - (T.z + d * cp * cy)) d hd0 (by linarith [show (1e-6 : ℝ) ≤ 2 by norm_num])
      (by linear_combination (d ^ 2 * cp ^ 2) * hpy + d ^ 2 * hpp)]
  have hfx : (T.x - (T.x + d * cp * sy)) / d = -(cp * sy) := by
    field_simp; ring
  have hfy : (T.y - (T.y + d * sp)) / d = -sp := by
    field_simp; ring
  have hfz : (T.z - (T.z + d * cp * cy)) / d = -(cp * cy) := by
    field_simp; ring
  rw [hfx, hfy, hfz]
  rw [norm_div_helper (-sp * 0 - -(cp * cy) * 1) (-(cp * cy) * 0 - -(cp * sy) * 0)
      (-(cp * sy) * 1 - -sp * 0) cp hcp0 (by linarith)
      (by linear_combination cp ^ 2 * hpy)]
  ext
  case snd.snd.snd.y =>
    field_simp
    linear_combination cp ^ 2 * hpy
  all_goals first
    | rfl
    | (field_simp; done)
    | (field_simp; ring)


/-! ## Claim C7 — the pitch clamp invariant -/

/-- One pointer-move never takes the pitch out of `[-1.25, 1.25]`: the orbit
and compass-orbit branches clamp, the other branches leave pitch alone. -/
lemma mouseMoveEvent_pitch (s : SceneState) (px py : ℤ)
    (h : s.camera_pitch ∈ Set.Icc (-1.25 : ℝ) 1.25) :
    (mouseMoveEvent s px py).camera_pitch ∈ Set.Icc (-1.25 : ℝ) 1.25 := by
  have hclamp : ∀ t : ℝ, max (-1.25) (min 1.25 t) ∈ Set.Icc (-1.25 : ℝ) 1.25 :=
    fun t => ⟨le_max_left _ _, max_le (by norm_num) (min_le_left _ _)⟩
  unfold mouseMoveEvent
  cases hl : s.last_mouse_pos with
  | none => exact h
  | some lp =>
    cases hm : s.drag_mode with
    | none => exact h
    | some mode =>
      cases mode
      case orbit => exact hclamp _
      case pan => exact h
      case viewGizmoOrbit => exact hclamp _
      case moveEntity =>
        dsimp only
        split
        · split <;> exact h
        · exact h
      case rotateAxis =>
        dsimp only
        split
        · exact h
        · exact h

/-- C7.  Starting from any pitch inside `[-1.25, 1.25]`, any finite sequence
of pointer-moves (orbit, compass-orbit, or any other mode), align-to-axis
actions and view resets keeps the pitch inside `[-1.25, 1.25]` after every
event. -/
theorem pitch_clamp_invariant (s : SceneState) (acts : List CamAct)
    (h : s.camera_pitch ∈ Set.Icc (-1.25 : ℝ) 1.25) :
    (acts.foldl camStep s).camera_pitch ∈ Set.Icc (-1.25 : ℝ) 1.25 := by
  induction acts generalizing s with
  | nil => exact h
  | cons act rest ih =>
    rw [List.foldl_cons]
    refine ih _ ?_
    cases act with
    | move px py => exact mouseMoveEvent_pitch s px py h
    | align a => cases a <;> norm_num [camStep, alignCameraToAxis, Set.mem_Icc]
    | reset => norm_num [camStep, resetCameraView, Set.mem_Icc]

/-- C7, witness: from the default state, a huge downward orbit drag followed
by an align and a reset stays clamped. -/
theorem pitch_clamp_invariant_witness :
    (([CamAct.move 5 1000, CamAct.align Axis.y,
       CamAct.reset]).foldl camStep
        { initState with drag_mode := some DragMode.orbit,
                         last_mouse_pos := some (0, 0) }).camera_pitch
      ∈ Set.Icc (-1.25 : ℝ) 1.25 :=
  pitch_clamp_invariant
    { initState with drag_mode := some DragMode.orbit,
                     last_mouse_pos := some (0, 0) }
    [CamAct.move 5 1000, CamAct.align Axis.y, CamAct.reset]
    (by constructor <;> norm_num [initState])

/-! ## Claim C9 — pointer-up: compass click-to-align and session cleanup -/

/-- C9.  Every pointer-up clears the six transient session fields; when it
ends a compass session with a targeted axis and the dragged flag still false,
the camera is aligned to that axis (x: yaw = π/2, pitch = 0; z: yaw = 0,
pitch = 0; y: pitch = 1.25, near-vertical). -/
theorem release_clears_session (s : SceneState) :
    (mouseReleaseEvent s).drag_mode = Option.none ∧
    (mouseReleaseEvent s).drag_entity_index = -1 ∧
    (mouseReleaseEvent s).rotate_axis = Option.none ∧
    (mouseReleaseEvent s).view_gizmo_click_axis = Option.none ∧
    (mouseReleaseEvent s).view_gizmo_dragged = false ∧
    (mouseReleaseEvent s).last_mouse_pos = Option.none ∧
    (s.drag_mode = some DragMode.viewGizmoOrbit → s.view_gizmo_dragged = false →
      ∀ a, s.view_gizmo_click_axis = some a →
        (mouseReleaseEvent s).camera_yaw = (alignCameraToAxis s a).camera_yaw ∧
        (mouseReleaseEvent s).camera_pitch = (alignCameraToAxis s a).camera_pitch) ∧
    ((alignCameraToAxis s Axis.x).camera_yaw = Real.pi * 0.5 ∧
      (alignCameraToAxis s Axis.x).camera_pitch = 0) ∧
    ((alignCameraToAxis s Axis.z).camera_yaw = 0 ∧
      (alignCameraToAxis s Axis.z).camera_pitch = 0) ∧
    (alignCameraToAxis s Axis.y).camera_pitch = 1.25 := by
  refine ⟨rfl, rfl, rfl, rfl, rfl, rfl, ?_, ⟨rfl, rfl⟩, ⟨rfl, rfl⟩, rfl⟩
  intro hmode hdrag a haxis
  unfold mouseReleaseEvent
  rw [hmode, haxis, hdrag]
  simp

/-! ## Claim C5 — a pointer-down during an active session -/

/-- A state in the middle of a `move_entity` drag session. -/
def activeDragState : SceneState :=
  { initState with drag_mode := some DragMode.moveEntity,
                   drag_entity_index := 0, drag_plane_y := 0.5,
                   last_mouse_pos := some (400, 300) }

/-- C5, counterexample.  With a `move_entity` session active, a further
right-button pointer-down is *not* ignored: the mode is overwritten with
`orbit`, so the session state does not keep its values. -/
theorem press_overwrites_session_cex :
    activeDragState.drag_mode = some DragMode.moveEntity ∧
    (mousePressEvent activeDragState MouseButton.right 5 5).drag_mode
      = some DragMode.orbit ∧
    some DragMode.orbit ≠ some DragMode.moveEntity := by
  refine ⟨rfl, rfl, by simp⟩

/-- C5, amended.  `mousePressEvent` has no guard on an active session: a
further right (resp. middle) button press simply replaces the mode with
`orbit` (resp. `pan`) and stores the new pointer position, leaving the other
session fields (entity index, plane height, offset, rotation axis) at their
old values — the press is processed as if the state were idle, not ignored. -/
theorem press_during_session (s : SceneState) (px py : ℤ)
    (h : s.drag_mode ≠ Option.none) :
    mousePressEvent s MouseButton.right px py
      = { s with last_mouse_pos := some (px, py),
                 drag_mode := some DragMode.orbit } ∧
    mousePressEvent s MouseButton.middle px py
      = { s with last_mouse_pos := some (px, py),
                 drag_mode := some DragMode.pan } :=
  ⟨rfl, rfl⟩

/-- C5, witness: the active `move_entity` session above, right- and
middle-button presses at `(5, 5)`. -/
theorem press_during_session_witness :
    activeDragState.drag_mode ≠ Option.none ∧
    mousePressEvent activeDragState MouseButton.right 5 5
      = { activeDragState with last_mouse_pos := some (5, 5),
                               drag_mode := some DragMode.orbit } ∧
    mousePressEvent activeDragState MouseButton.middle 5 5
      = { activeDragState with last_mouse_pos := some (5, 5),
                               drag_mode := some DragMode.pan } :=
  ⟨by simp [activeDragState], press_during_session activeDragState 5 5 (by simp [activeDragState])⟩

/-! ## Claim C3 — `move_entity` drags are planar -/

/-- The ray, and hence the plane intersection, ignores the stored pointer
position and the drag mode. -/
lemma intersectPlaneY_session (s : SceneState) (lmp : Option (ℤ × ℤ))
    (dm : Option DragMode) (a b c : ℝ) :
    intersectPlaneY { s with last_mouse_pos := lmp, drag_mode := dm } a b c
      = intersectPlaneY s a b c := rfl

/-- A returned plane intersection lies exactly on the plane. -/
lemma intersectPlaneY_y (s : SceneState) (a b c : ℝ) (hit : V3)
    (h : intersectPlaneY s a b c = some hit) : hit.y = c := by
  unfold intersectPlaneY at h
  dsimp only at h
  by_cases h1 : |(rayFromScreen s a b).2.y| < 1e-6
  · rw [if_pos h1] at h; cases h
  · rw [if_neg h1] at h
    by_cases h2 : (c - (rayFromScreen s a b).1.y) / (rayFromScreen s a b).2.y ≤ 0
    · rw [if_pos h2] at h; cases h
    · rw [if_neg h2] at h
      cases h
      have hd : (rayFromScreen s a b).2.y ≠ 0 := by
        intro h0
        apply h1
        rw [h0]
        norm_num
      dsimp only
      field_simp

/-- C3.  During an active `move_entity` session on an in-range entity, a
pointer-move whose ray hits the drag plane writes exactly
`hit.xz + stored offset` into the entity's X and Z and never writes Y (so Y
stays at the drag-plane height whenever it started there — which pointer-down
guarantees by construction of `drag_plane_y`); the hit itself lies on the
plane; and a move whose ray misses the plane (near-parallel or behind the
origin) leaves the entity list untouched that frame. -/
theorem moveEntity_planar_drag (s : SceneState) (px py : ℤ) (lp : ℤ × ℤ)
    (hm : s.drag_mode = some DragMode.moveEntity)
    (hl : s.last_mouse_pos = some lp)
    (hi0 : 0 ≤ s.drag_entity_index)
    (hiLen : s.drag_entity_index < s.entities.length) :
    (∀ hit, intersectPlaneY s (px : ℝ) (py : ℝ) s.drag_plane_y = some hit →
      hit.y = s.drag_plane_y ∧
      (mouseMoveEvent s px py).entities =
        s.entities.set s.drag_entity_index.toNat
          { entGet s.entities s.drag_entity_index with
            pos := ⟨hit.x + s.drag_offset_xz.1,
                    (entGet s.entities s.drag_entity_index).pos.y,
                    hit.z + s.drag_offset_xz.2⟩ } ∧
      ((entGet s.entities s.drag_entity_index).pos.y = s.drag_plane_y →
        (entGet (mouseMoveEvent s px py).entities s.drag_entity_index).pos.y
          = s.drag_plane_y)) ∧
    (intersectPlaneY s (px : ℝ) (py : ℝ) s.drag_plane_y = Option.none →
      (mouseMoveEvent s px py).entities = s.entities) := by
  have hguard : 0 ≤ s.drag_entity_index ∧
      s.drag_entity_index < s.entities.length := ⟨hi0, hiLen⟩
  constructor
  · intro hit hhit
    refine ⟨intersectPlaneY_y s (px : ℝ) (py : ℝ) s.drag_plane_y hit hhit, ?_, ?_⟩
    · unfold mouseMoveEvent
      rw [hl, hm]
      dsimp only
      rw [if_pos hguard, intersectPlaneY_session, hhit]
    · intro hY
      unfold mouseMoveEvent
      rw [hl, hm]
      dsimp only
      rw [if_pos hguard, intersectPlaneY_session, hhit]
      dsimp only
      unfold entGet
      have hlt : s.drag_entity_index.toNat < s.entities.length := by omega
      rw [List.getElem?_set_eq_of_lt _ hlt]
      dsimp only [Option.getD_some]
      unfold entGet at hY
      exact hY
  · intro hnone
    unfold mouseMoveEvent
    rw [hl, hm]
    dsimp only
    rw [if_pos hguard, intersectPlaneY_session, hnone]

/-- A state mid-way through a `move_entity` drag of the default cube. -/
def moveDragState : SceneState :=
  { initState with drag_mode := some DragMode.moveEntity,
                   drag_entity_index := 0, drag_plane_y := 0.5,
                   last_mouse_pos := some (10, 20) }

/-- C3, witness: the active `move_entity` session above, pointer moved to
`(400, 300)`. -/
theorem moveEntity_planar_drag_witness :
    (∀ hit, intersectPlaneY moveDragState ((400 : ℤ) : ℝ) ((300 : ℤ) : ℝ)
        moveDragState.drag_plane_y = some hit →
      hit.y = moveDragState.drag_plane_y ∧
      (mouseMoveEvent moveDragState 400 300).entities =
        moveDragState.entities.set moveDragState.drag_entity_index.toNat
          { entGet moveDragState.entities moveDragState.drag_entity_index with
            pos := ⟨hit.x + moveDragState.drag_offset_xz.1,
                    (entGet moveDragState.entities
                      moveDragState.drag_entity_index).pos.y,
                    hit.z + moveDragState.drag_offset_xz.2⟩ } ∧
      ((entGet moveDragState.entities moveDragState.drag_entity_index).pos.y
          = moveDragState.drag_plane_y →
        (entGet (mouseMoveEvent moveDragState 400 300).entities
            moveDragState.drag_entity_index).pos.y
          = moveDragState.drag_plane_y)) ∧
    (intersectPlaneY moveDragState ((400 : ℤ) : ℝ) ((300 : ℤ) : ℝ)
        moveDragState.drag_plane_y = Option.none →
      (mouseMoveEvent moveDragState 400 300).entities = moveDragState.entities) :=
  moveEntity_planar_drag moveDragState 400 300 (10, 20) rfl rfl
    (by norm_num [moveDragState, initState])
    (by norm_num [moveDragState, initState])

/-! ## Claim C6 — what `pan` does to the camera target -/

/-- The camera basis ignores the stored pointer position and drag mode. -/
lemma cameraVectors_session (s : SceneState) (lmp : Option (ℤ × ℤ))
    (dm : Option DragMode) :
    cameraVectors { s with last_mouse_pos := lmp, drag_mode := dm }
      = cameraVectors s := rfl

/-- C6, amended.  A pan pointer-move with delta `(dx, dy)` displaces the
target by `-dx*(0.005*distance)` along the right vector's X and Z and by
`-dy*(0.005*distance)` along only the world-vertical component of the up
vector: since `right.y = 0` always, the horizontal part does lie along
`right` and scales linearly with the distance, but the vertical part moves
the target straight down the world Y axis by `up.y`, not along the full up
vector, so the displacement lies in `span(right, worldY)`, not
`span(right, up)`; yaw, pitch and distance are unchanged. -/
theorem pan_moves_target (s : SceneState) (px py : ℤ) (lp : ℤ × ℤ)
    (hm : s.drag_mode = some DragMode.pan)
    (hl : s.last_mouse_pos = some lp) :
    (mouseMoveEvent s px py).camera_target =
      ⟨s.camera_target.x
          - ((px - lp.1 : ℤ) : ℝ) * (0.005 * s.camera_distance)
            * (cameraVectors s).2.2.1.x,
        s.camera_target.y
          - ((py - lp.2 : ℤ) : ℝ) * (0.005 * s.camera_distance)
            * (cameraVectors s).2.2.2.y,
        s.camera_target.z
          - ((px - lp.1 : ℤ) : ℝ) * (0.005 * s.camera_distance)
            * (cameraVectors s).2.2.1.z⟩ ∧
    (cameraVectors s).2.2.1.y = 0 ∧
    (mouseMoveEvent s px py).camera_yaw = s.camera_yaw ∧
    (mouseMoveEvent s px py).camera_pitch = s.camera_pitch ∧
    (mouseMoveEvent s px py).camera_distance = s.camera_distance := by
  refine ⟨?_, ?_, ?_, ?_, ?_⟩
  · unfold mouseMoveEvent
    rw [hl, hm]
    dsimp only
    rw [cameraVectors_session]
    ext <;> dsimp only <;> ring
  · unfold cameraVectors
    dsimp only
    norm_num
  · unfold mouseMoveEvent
    rw [hl, hm]
  · unfold mouseMoveEvent
    rw [hl, hm]
  · unfold mouseMoveEvent
    rw [hl, hm]

/-- A pan session with the camera tilted (`pitch = π/4`) and turned
(`yaw = π/2`), where the claimed up-vector displacement is falsifiable. -/
def panCexState : SceneState :=
  { initState with camera_yaw := Real.pi / 2, camera_pitch := Real.pi / 4,
                   drag_mode := some DragMode.pan, last_mouse_pos := some (0, 0) }

/-- `π/4` is inside the pitch clamp range. -/
lemma panCex_pitch_bound : |panCexState.camera_pitch| ≤ 1.25 := by
  have hpos : (0 : ℝ) ≤ Real.pi / 4 := by positivity
  have : panCexState.camera_pitch = Real.pi / 4 := rfl
  rw [this, abs_of_nonneg hpos]
  nlinarith [Real.pi_le_four]

/-- The camera basis of `panCexState` in closed form. -/
lemma cameraVectors_panCex :
    cameraVectors panCexState =
      (⟨5 * Real.sqrt 2, 5 * Real.sqrt 2, 0⟩,
       ⟨-(Real.sqrt 2 / 2), -(Real.sqrt 2 / 2), 0⟩,
       ⟨0, 0, -1⟩,
       ⟨-(Real.sqrt 2 / 2), Real.sqrt 2 / 2, 0⟩) := by
  have H := cameraVectors_explicit panCexState panCex_pitch_bound
    (by norm_num [panCexState, initState])
  rw [H]
  have hy : panCexState.camera_yaw = Real.pi / 2 := rfl
  have hp : panCexState.camera_pitch = Real.pi / 4 := rfl
  have ht : panCexState.camera_target = ⟨0, 0, 0⟩ := rfl
  have hd : panCexState.camera_distance = 10 := rfl
  rw [hy, hp, ht, hd, Real.cos_pi_div_two, Real.sin_pi_div_two,
    Real.cos_pi_div_four, Real.sin_pi_div_four]
  ext <;> dsimp only <;> ring

/-- C6, counterexample.  At `panCexState`, the pan move with screen delta
`(0, 1)` displaces the target in a way that equals
`target - dy*k*distance*up` for *no* constant `k` (the `dx` term vanishes
since `dx = 0`): the code displaces only the world-Y coordinate by `up.y`,
while the claimed formula would also move X by `up.x ≠ 0`. -/
theorem pan_vertical_escapes_right_up_plane_cex :
    ¬ ∃ k : ℝ,
      (mouseMoveEvent panCexState 0 1).camera_target =
        ⟨panCexState.camera_target.x - k * panCexState.camera_distance
            * (cameraVectors panCexState).2.2.2.x,
         panCexState.camera_target.y - k * panCexState.camera_distance
            * (cameraVectors panCexState).2.2.2.y,
         panCexState.camera_target.z - k * panCexState.camera_distance
            * (cameraVectors panCexState).2.2.2.z⟩ := by
  rintro ⟨k, hk⟩
  have hL := (pan_moves_target panCexState 0 1 (0, 0) rfl rfl).1
  rw [hL, cameraVectors_panCex] at hk
  have ht : panCexState.camera_target = ⟨0, 0, 0⟩ := rfl
  have hd : panCexState.camera_distance = 10 := rfl
  rw [ht, hd] at hk
  have hs2 : (0 : ℝ) < Real.sqrt 2 := Real.sqrt_pos.mpr (by norm_num)
  have hx := congrArg V3.x hk
  have hy := congrArg V3.y hk
  dsimp only at hx hy
  have hk0 : k = 0 := by
    have h1 : k * (10 * (Real.sqrt 2 / 2)) = 0 := by nlinarith [hx]
    rcases mul_eq_zero.mp h1 with h | h
    · exact h
    · nlinarith [hs2]
  rw [hk0] at hy
  nlinarith [hy, hs2]


/-- A plain pan session at the default camera. -/
def panWitnessState : SceneState :=
  { initState with drag_mode := some DragMode.pan, last_mouse_pos := some (0, 0) }

/-- C6, witness: a pan move with delta `(3, 4)` from the default camera. -/
theorem pan_moves_target_witness :
    (mouseMoveEvent panWitnessState 3 4).camera_target =
      ⟨panWitnessState.camera_target.x
          - ((3 - 0 : ℤ) : ℝ) * (0.005 * panWitnessState.camera_distance)
            * (cameraVectors panWitnessState).2.2.1.x,
        panWitnessState.camera_target.y
          - ((4 - 0 : ℤ) : ℝ) * (0.005 * panWitnessState.camera_distance)
            * (cameraVectors panWitnessState).2.2.2.y,
        panWitnessState.camera_target.z
          - ((3 - 0 : ℤ) : ℝ) * (0.005 * panWitnessState.camera_distance)
            * (cameraVectors panWitnessState).2.2.1.z⟩ ∧
    (cameraVectors panWitnessState).2.2.1.y = 0 ∧
    (mouseMoveEvent panWitnessState 3 4).camera_yaw = panWitnessState.camera_yaw ∧
    (mouseMoveEvent panWitnessState 3 4).camera_pitch = panWitnessState.camera_pitch ∧
    (mouseMoveEvent panWitnessState 3 4).camera_distance
      = panWitnessState.camera_distance :=
  pan_moves_target panWitnessState 3 4 (0, 0) rfl rfl

/-! ### Projection / unprojection round trip -/

/-- Euclidean norm of a vector. -/
def norm3 (v : V3) : ℝ := Real.sqrt (v.x * v.x + v.y * v.y + v.z * v.z)

/-- Euclidean distance between two points. -/
def dist3 (p q : V3) : ℝ := norm3 ⟨p.x - q.x, p.y - q.y, p.z - q.z⟩

/-- C2: for every camera state with pitch in the clamp range and distance in
the zoom range `[2, 60]` (and the program's constant 60-degree field of view),
every viewport size and every world point that `_project_point` accepts (view
depth above the `0.05` near epsilon), `_ray_from_screen` at the projected
screen coordinates returns a ray whose origin is the camera position and whose
direction is unit-length, and the original point lies on that ray at parameter
`t > 0` equal to its distance from the camera. -/
theorem project_unproject_roundtrip (s : SceneState) (p : V3) (sx sy vz : ℝ)
    (hpitch : |s.camera_pitch| ≤ 1.25)
    (hdlo : 2 ≤ s.camera_distance) (hdhi : s.camera_distance ≤ 60)
    (hfov : s.fov_deg = 60)
    (hproj : projectPoint s p = some (sx, sy, vz)) :
    (rayFromScreen s sx sy).1 = (cameraVectors s).1 ∧
    norm3 (rayFromScreen s sx sy).2 = 1 ∧
    0 < dist3 p (rayFromScreen s sx sy).1 ∧
    p = ⟨(rayFromScreen s sx sy).1.x
          + dist3 p (rayFromScreen s sx sy).1 * (rayFromScreen s sx sy).2.x,
         (rayFromScreen s sx sy).1.y
          + dist3 p (rayFromScreen s sx sy).1 * (rayFromScreen s sx sy).2.y,
         (rayFromScreen s sx sy).1.z
          + dist3 p (rayFromScreen s sx sy).1 * (rayFromScreen s sx sy).2.z⟩ := by
  have H := cameraVectors_explicit s hpitch hdlo
  unfold projectPoint at hproj
  rw [H] at hproj
  dsimp only at hproj
  unfold rayFromScreen dist3 norm3
  rw [H]
  dsimp only
  set cp := Real.cos s.camera_pitch with hcpdef
  set sp := Real.sin s.camera_pitch with hspdef
  set cy := Real.cos s.camera_yaw with hcydef
  set sy2 := Real.sin s.camera_yaw with hsydef
  set T := s.camera_target with hTdef
  set d := s.camera_distance with hddef
  have hpy : sy2 ^ 2 + cy ^ 2 = 1 := Real.sin_sq_add_cos_sq _
  have hpp : sp ^ 2 + cp ^ 2 = 1 := Real.sin_sq_add_cos_sq _
  set W : ℝ := ((max 1 s.width : ℕ) : ℝ) with hWdef
  set Hh : ℝ := ((max 1 s.height : ℕ) : ℝ) with hHhdef
  have hW : (0 : ℝ) < W := by
    rw [hWdef]
    exact_mod_cast Nat.lt_of_lt_of_le Nat.zero_lt_one (le_max_left 1 s.width)
  have h1H : (1 : ℝ) ≤ Hh := by
    rw [hHhdef]
    exact_mod_cast le_max_left 1 s.height
  have hH : (0 : ℝ) < Hh := by linarith
  rw [max_eq_right h1H] at hproj ⊢
  set AR := W / Hh with hARdef
  have hAR : (0 : ℝ) < AR := div_pos hW hH
  set th := Real.tan (radians s.fov_deg * 0.5) with hthdef
  have hth : (0 : ℝ) < th := by
    rw [hthdef, hfov]
    rw [show radians 60 * 0.5 = Real.pi / 6 by unfold radians; ring]
    exact Real.tan_pos_of_pos_of_lt_pi_div_two (by positivity)
      (by linarith [Real.pi_pos])
  set a := p.x - (T.x + d * cp * sy2) with hadef
  set b := p.y - (T.y + d * sp) with hbdef
  set c := p.z - (T.z + d * cp * cy) with hcdef
  set VX := a * cy + b * 0 + c * -sy2 with hVXdef
  set VY := a * -(sp * sy2) + b * cp + c * -(sp * cy) with hVYdef
  set VZ := a * -(cp * sy2) + b * -sp + c * -(cp * cy) with hVZdef
  clear_value VZ VY VX c b a th AR Hh W d T sy2 cy sp cp
  split at hproj
  · exact absurd hproj (by simp)
  rename_i hvle
  have hvzpos : (5e-2 : ℝ) < VZ := not_le.mp hvle
  have hVZ0 : (0 : ℝ) < VZ := by linarith
  have hVZne : VZ ≠ 0 := hVZ0.ne'
  obtain ⟨hsx, hsy, hvzeq⟩ :
      (VX / (VZ * th * AR) * 0.5 + 0.5) * W = sx ∧
      (0.5 - VY / (VZ * th) * 0.5) * Hh = sy ∧ VZ = vz := by
    have h := Option.some.inj hproj
    simpa [Prod.ext_iff] using h
  rw [← hsx, ← hsy]
  clear hproj hsx hsy hvle hvzeq H
  have hndcx : 2 * ((VX / (VZ * th * AR) * 0.5 + 0.5) * W) / W - 1
      = VX / (VZ * th * AR) := by
    field_simp
    ring
  have hndcy : 1 - 2 * ((0.5 - VY / (VZ * th) * 0.5) * Hh) / Hh
      = VY / (VZ * th) := by
    field_simp
    ring
  rw [hndcx, hndcy]
  have hthne : th ≠ 0 := hth.ne'
  have hARne : AR ≠ 0 := hAR.ne'
  have hkx : cy * VX - sp * sy2 * VY - cp * sy2 * VZ = a := by
    rw [hVXdef, hVYdef, hVZdef]
    linear_combination (a * sy2 ^ 2 + c * sy2 * cy) * hpp + a * hpy
  have hky : cp * VY - sp * VZ = b := by
    rw [hVYdef, hVZdef]
    linear_combination b * hpp
  have hkz : -sy2 * VX - sp * cy * VY - cp * cy * VZ = c := by
    rw [hVXdef, hVYdef, hVZdef]
    linear_combination (a * sy2 * cy + c * cy ^ 2) * hpp + c * hpy
  have hdx : -(cp * sy2) + cy * (VX / (VZ * th * AR)) * th * AR
      + -(sp * sy2) * (VY / (VZ * th)) * th = a / VZ := by
    rw [← hkx]
    field_simp
    ring
  have hdy : -sp + 0 * (VX / (VZ * th * AR)) * th * AR
      + cp * (VY / (VZ * th)) * th = b / VZ := by
    rw [← hky]
    field_simp
    ring
  have hdz : -(cp * cy) + -sy2 * (VX / (VZ * th * AR)) * th * AR
      + -(sp * cy) * (VY / (VZ * th)) * th = c / VZ := by
    rw [← hkz]
    field_simp
    ring
  rw [hdx, hdy, hdz]
  have harg : a / VZ * (a / VZ) + b / VZ * (b / VZ) + c / VZ * (c / VZ)
      = (a * a + b * b + c * c) / VZ ^ 2 := by
    field_simp
    ring_nf
    exact Or.inl trivial
  rw [harg]
  set L := Real.sqrt (a * a + b * b + c * c) with hLdef
  clear_value L
  have hsos : (0 : ℝ) ≤ a * a + b * b + c * c :=
    add_nonneg (add_nonneg (mul_self_nonneg a) (mul_self_nonneg b))
      (mul_self_nonneg c)
  have hsqrtq : Real.sqrt ((a * a + b * b + c * c) / VZ ^ 2) = L / VZ := by
    rw [Real.sqrt_div hsos, Real.sqrt_sq hVZ0.le, ← hLdef]
  rw [hsqrtq]
  have hsum1 : cp ^ 2 * sy2 ^ 2 + sp ^ 2 + cp ^ 2 * cy ^ 2 = 1 := by
    linear_combination cp ^ 2 * hpy + hpp
  have hVZle : VZ ^ 2 ≤ a * a + b * b + c * c := by
    calc VZ ^ 2 = (a * (cp * sy2) + b * sp + c * (cp * cy)) ^ 2 := by
          rw [hVZdef]; ring
      _ ≤ (a * a + b * b + c * c) * (cp ^ 2 * sy2 ^ 2 + sp ^ 2 + cp ^ 2 * cy ^ 2) := by
          have lag : (a * a + b * b + c * c)
                * (cp ^ 2 * sy2 ^ 2 + sp ^ 2 + cp ^ 2 * cy ^ 2)
              - (a * (cp * sy2) + b * sp + c * (cp * cy)) ^ 2
              = (a * sp - b * (cp * sy2)) ^ 2 + (b * (cp * cy) - c * sp) ^ 2
                + (c * (cp * sy2) - a * (cp * cy)) ^ 2 := by ring
          linarith [sq_nonneg (a * sp - b * (cp * sy2)),
            sq_nonneg (b * (cp * cy) - c * sp),
            sq_nonneg (c * (cp * sy2) - a * (cp * cy)), lag]
      _ = a * a + b * b + c * c := by rw [hsum1, mul_one]
  have hVZL : VZ ≤ L := by
    rw [hLdef]
    exact Real.le_sqrt_of_sq_le hVZle
  have hL0 : (0 : ℝ) < L := lt_of_lt_of_le hVZ0 hVZL
  have hLne : L ≠ 0 := hL0.ne'
  have h1LVZ : (1 : ℝ) ≤ L / VZ := (one_le_div hVZ0).mpr hVZL
  have hmaxL : (1e-6 : ℝ) ⊔ (L / VZ) = L / VZ := by
    apply max_eq_right
    have : (1e-6 : ℝ) ≤ 1 := by norm_num
    linarith
  rw [hmaxL]
  have hqa : a / VZ / (L / VZ) = a / L := by
    field_simp
  have hqb : b / VZ / (L / VZ) = b / L := by
    field_simp
  have hqc : c / VZ / (L / VZ) = c / L := by
    field_simp
  rw [hqa, hqb, hqc]
  have hL2 : L ^ 2 = a * a + b * b + c * c := by
    rw [hLdef]; exact Real.sq_sqrt hsos
  refine ⟨rfl, ?_, hL0, ?_⟩
  · have h1 : a / L * (a / L) + b / L * (b / L) + c / L * (c / L) = 1 := by
      field_simp
      linear_combination -hL2
    rw [h1, Real.sqrt_one]
  · have ha' : L * (a / L) = a := by field_simp
    have hb' : L * (b / L) = b := by field_simp
    have hc' : L * (c / L) = c := by field_simp
    rw [ha', hb', hc']
    ext
    · rw [hadef]; ring
    · rw [hbdef]; ring
    · rw [hcdef]; ring

/-- The default camera looking down the world Z axis. -/
def rtState : SceneState :=
  { initState with camera_yaw := 0, camera_pitch := 0 }

/-- C2, witness: the world origin seen from the default camera at yaw 0,
pitch 0 projects to the screen centre `(400, 300)` at depth 10, and the ray
through that pixel recovers it. -/
theorem project_unproject_roundtrip_witness :
    projectPoint rtState ⟨0, 0, 0⟩ = some (400, 300, 10) ∧
    ((rayFromScreen rtState 400 300).1 = (cameraVectors rtState).1 ∧
     norm3 (rayFromScreen rtState 400 300).2 = 1 ∧
     0 < dist3 ⟨0, 0, 0⟩ (rayFromScreen rtState 400 300).1 ∧
     (⟨0, 0, 0⟩ : V3) =
       ⟨(rayFromScreen rtState 400 300).1.x
          + dist3 ⟨0, 0, 0⟩ (rayFromScreen rtState 400 300).1
            * (rayFromScreen rtState 400 300).2.x,
        (rayFromScreen rtState 400 300).1.y
          + dist3 ⟨0, 0, 0⟩ (rayFromScreen rtState 400 300).1
            * (rayFromScreen rtState 400 300).2.y,
        (rayFromScreen rtState 400 300).1.z
          + dist3 ⟨0, 0, 0⟩ (rayFromScreen rtState 400 300).1
            * (rayFromScreen rtState 400 300).2.z⟩) := by
  have hcv : cameraVectors rtState =
      (⟨0, 0, 10⟩, ⟨0, 0, -1⟩, ⟨1, 0, 0⟩, ⟨0, 1, 0⟩) := by
    have h := cameraVectors_explicit rtState
      (by norm_num [rtState, initState])
      (by norm_num [rtState, initState])
    rw [h]
    norm_num [rtState, initState]
  have hp : projectPoint rtState ⟨0, 0, 0⟩ = some (400, 300, 10) := by
    unfold projectPoint
    rw [hcv]
    norm_num [rtState, initState]
  exact ⟨hp, project_unproject_roundtrip rtState ⟨0, 0, 0⟩ 400 300 10
    (by norm_num [rtState, initState])
    (by norm_num [rtState, initState])
    (by norm_num [rtState, initState])
    (by norm_num [rtState, initState]) hp⟩

end

end NeoPyxel
